import Mathlib

/-!
# viam-alarm: sample buffer, value extraction, rate of change, alarm flags

A shallow embedding of `utils/queue.go`, `alarm/config.go` and
`alarm/module.go`.

Conventions of the embedding:

* A Go `error` is a `GoError` carrying its message.  A function returning
  `(T, error)` becomes `Except GoError T`; a method that mutates its receiver
  and returns `error` returns the new receiver together with `Option GoError`.
* A run-time panic (index out of range, integer division by zero, failed type
  assertion, nil dereference) is the outer `none` of an `Option`.
* The `int` fields of `Queue` are natural numbers: `NewQueue` only builds
  queues with non-negative fields and `Push` only increases them, far below
  the 64-bit limit (`count ≤ size = len(values)`).
* `float64` arithmetic is taken exactly, over `ℚ`.
* `interface{}` is `RawValue`, a tagged union of the dynamic types a reading
  can have; the nil interface is `RawValue.nil`.
-/

namespace Alarm

/-! ## Definitions -/

/-- Go `error` value, identified by its message. -/
structure GoError where
  msg : String
deriving DecidableEq, Repr

/-- Dynamic value of Go type `interface{}` as it can occur in a sensor reading. -/
inductive RawValue where
  | nil
  | string (s : String)
  | int (v : Int)
  | int8 (v : Int)
  | int16 (v : Int)
  | int32 (v : Int)
  | int64 (v : Int)
  | uint (v : Nat)
  | uint8 (v : Nat)
  | uint16 (v : Nat)
  | uint32 (v : Nat)
  | uint64 (v : Nat)
  | float32 (v : ℚ)
  | float64 (v : ℚ)
  | bool (b : Bool)
deriving DecidableEq

instance : Inhabited RawValue := ⟨RawValue.nil⟩

/-- `utils.Queue`: backing slice, head and tail indices, capacity, element count. -/
structure Queue (α : Type) where
  values : List α
  head : Nat
  tail : Nat
  size : Nat
  count : Nat
deriving DecidableEq

/-- `utils.NewQueue`: rejects `length <= 0`, otherwise a zeroed slice of
`length` slots (`default` is the nil interface) and all counters at zero. -/
def NewQueue {α : Type} [Inhabited α] (length : Int) : Except GoError (Queue α) :=
  if length ≤ 0 then
    Except.error ⟨"length must be greater than 0"⟩
  else
    Except.ok
      { values := List.replicate length.toNat default
        head := 0
        tail := 0
        size := length.toNat
        count := 0 }

/-- `Queue.IsFull`. -/
def Queue.IsFull {α : Type} (q : Queue α) : Bool :=
  q.size == q.count

/-- `Queue.IsEmpty`. -/
def Queue.IsEmpty {α : Type} (q : Queue α) : Bool :=
  q.count == 0

/-- `Queue.Push`: when full, the queue is returned untouched with the error
`queue is full`; otherwise the value is stored at `tail`, `tail` advances
modulo `size` and `count` grows by one.  `none` is a run-time panic (store
outside the slice). -/
def Queue.Push {α : Type} (q : Queue α) (value : α) : Option (Queue α × Option GoError) :=
  if q.IsFull then
    some (q, some ⟨"queue is full"⟩)
  else if q.tail < q.values.length then
    if q.size = 0 then none
    else
      some ({ q with
                values := q.values.set q.tail value
                tail := (q.tail + 1) % q.size
                count := q.count + 1 }, none)
  else none

/-- The loop of `Queue.ReadAll`: reads `n` more slots starting at offset `i`,
slot `(head + i) % size` each time.  `none` is a run-time panic. -/
def Queue.readLoop {α : Type} (q : Queue α) : Nat → Nat → Option (List α)
  | _, 0 => some []
  | i, n + 1 =>
    if q.size = 0 then none
    else
      match q.values[(q.head + i) % q.size]? with
      | none => none
      | some v => (Queue.readLoop q (i + 1) n).map (fun rest => v :: rest)

/-- `Queue.ReadAll`: a new slice of `count` elements, element `i` being
`values[(head+i) % size]`.  The queue itself is not modified. -/
def Queue.ReadAll {α : Type} (q : Queue α) : Option (List α) :=
  Queue.readLoop q 0 q.count

/-- Pushes the values one after the other, collecting the error returned by
each `Push`. -/
def Queue.pushMany {α : Type} (q : Queue α) : List α → Option (Queue α × List (Option GoError))
  | [] => some (q, [])
  | v :: vs =>
    match q.Push v with
    | none => none
    | some (q1, e) =>
      match Queue.pushMany q1 vs with
      | none => none
      | some (q2, es) => some (q2, e :: es)

/-- Queue states reachable from a successful `NewQueue c` by `Push` (whether
it succeeds or fails) and `ReadAll`. -/
inductive Queue.Reachable {α : Type} [Inhabited α] (c : Int) : Queue α → Prop where
  | new (q : Queue α) (h : NewQueue c = Except.ok q) : Queue.Reachable c q
  | push (q q1 : Queue α) (v : α) (e : Option GoError)
      (hq : Queue.Reachable c q) (h : q.Push v = some (q1, e)) : Queue.Reachable c q1
  | readAll (q : Queue α) (out : List α)
      (hq : Queue.Reachable c q) (h : q.ReadAll = some out) : Queue.Reachable c q

/-! ### `alarm/config.go` -/

/-- `alarm.AlarmConfig`. -/
structure AlarmConfig where
  SensorName : String
  FieldName : String
  ValueRegex : String
  RateOfChangePerSecond : ℚ
  PollingFrequencyHz : ℚ
  SampleSize : Int
  LowValue : ℚ
  LowLowValue : ℚ
  HighValue : ℚ
  HighHighValue : ℚ

/-- `AlarmConfig.Validate`: the first failing check decides the error; the
returned dependency list is always nil and is left out. -/
def AlarmConfig.Validate (cfg : AlarmConfig) : Except GoError Unit :=
  if cfg.SensorName = "" then Except.error ⟨"missing sensorName"⟩
  else if cfg.FieldName = "" then Except.error ⟨"missing fieldName"⟩
  else if cfg.RateOfChangePerSecond ≤ 0 then
    Except.error ⟨"rateOfChangePerSecond must be positive"⟩
  else if cfg.PollingFrequencyHz ≤ 0 then Except.error ⟨"pollingFrequencyHz must be positive"⟩
  else if cfg.SampleSize < 2 then Except.error ⟨"sampleSize must be at least 2"⟩
  else Except.ok ()

/-! ### `alarm/module.go` -/

/-- Compiled `*regexp.Regexp`, given by its leftmost match: `find s` is the
text of the leftmost match of the pattern in `s`, `none` when no substring of
`s` matches. -/
structure Regexp where
  find : String → Option String

/-- `Regexp.FindString` of the Go library: the text of the leftmost match, and
the empty string when there is no match. -/
def Regexp.FindString (re : Regexp) (s : String) : String :=
  (re.find s).getD ""

/-- `alarm.sample`; the time stamp is an abstract clock value. -/
structure sample where
  value : ℚ
  time : Nat
deriving DecidableEq

/-- A resource handed out by the dependency resolver; `isSensor` tells whether
the type assertion to `sensor.Sensor` succeeds. -/
structure Resource where
  name : String
  isSensor : Bool
deriving DecidableEq

/-- `resource.Dependencies.Lookup`, keyed by the sensor name. -/
abbrev Dependencies := String → Except GoError Resource

/-- `resource.Config`, seen through `resource.NativeConfig[*AlarmConfig]`. -/
structure Config where
  nativeConfig : Except GoError AlarmConfig

/-- What one call of `sensor.Readings` returns: an error, or the field map
(an absent key reads as the nil interface). -/
abbrev SensorReading := Except GoError (String → RawValue)

/-- The variables captured by the `monitor` closure built in `Reconfigure`. -/
structure Monitor where
  matchRegex : Regexp
  sleepTime : ℚ

/-- `alarm.alarm`.  `cancelled` says that `cancelCtx` is done (`cancelFunc` has
been called); `monitorRunning` says that a goroutine is executing `monitor`
(the wait group is non-zero).  Nil pointers are `none`. -/
structure alarm where
  cancelled : Bool
  monitor : Option Monitor
  monitorRunning : Bool
  sensor : Option Resource
  cfg : Option AlarmConfig
  queue : Option (Queue RawValue)
  currentRateOfChange : ℚ
  currentValue : Option sample

/-- `parseToFloat`.  `parseFloat` stands for `strconv.ParseFloat(·, 64)`.  The
type switch has cases for `string`, `int`, `int32`, `int64`, `float32` and
`float64`; every other dynamic type leaves `value` at zero. -/
def parseToFloat (parseFloat : String → Except GoError ℚ) (rawValue : RawValue)
    (matchRegex : Regexp) : Except GoError ℚ :=
  match rawValue with
  | RawValue.string v =>
    let m := matchRegex.FindString v
    if m = "" then
      Except.error ⟨"value " ++ v ++ " does not match regex"⟩
    else
      match parseFloat m with
      | Except.error err =>
        Except.error ⟨"error parsing value " ++ m ++ " as float: " ++ err.msg⟩
      | Except.ok p => Except.ok p
  | RawValue.int v => Except.ok (v : ℚ)
  | RawValue.int32 v => Except.ok (v : ℚ)
  | RawValue.int64 v => Except.ok (v : ℚ)
  | RawValue.float32 v => Except.ok v
  | RawValue.float64 v => Except.ok v
  | _ => Except.ok 0

/-- The record returned by `alarm.Readings`. -/
structure ReadingsResult where
  rateOfChange : ℚ
  currentValue : sample
  lowLowValueAlarm : Bool
  lowValueAlarm : Bool
  highValueAlarm : Bool
  highHighValueAlarm : Bool
deriving DecidableEq

/-- `alarm.Readings`: the error is always nil; `none` is the nil dereference
of `r.currentValue` or `r.cfg`. -/
def alarm.Readings (r : alarm) : Option ReadingsResult :=
  match r.currentValue, r.cfg with
  | some cur, some cfg =>
    some
      { rateOfChange := r.currentRateOfChange
        currentValue := cur
        lowLowValueAlarm := decide (cur.value < cfg.LowLowValue)
        lowValueAlarm := decide (cur.value < cfg.LowValue)
        highValueAlarm := decide (cur.value > cfg.HighValue)
        highHighValueAlarm := decide (cur.value > cfg.HighHighValue) }
  | _, _ => none

/-- `alarm.Close`: cancels the context and waits for the wait group. -/
def alarm.Close (r : alarm) : alarm :=
  { r with cancelled := true, monitorRunning := false }

/-- `alarm.Reconfigure`.  `compile` stands for `regexp.Compile`.  The steps, in
source order: cancel, wait, convert the configuration, store it, look up and
store the sensor, build and store the queue (nil on error), compile the
pattern, compute `sleepTime`, store the `monitor` closure.  The closure is
stored, not called. -/
def alarm.Reconfigure (compile : String → Except GoError Regexp) (r : alarm)
    (deps : Dependencies) (conf : Config) : Option (alarm × Option GoError) :=
  let r1 := { r with cancelled := true, monitorRunning := false }
  match conf.nativeConfig with
  | Except.error err => some (r1, some err)
  | Except.ok newConf =>
    let r2 := { r1 with cfg := some newConf }
    match deps newConf.SensorName with
    | Except.error err => some (r2, some err)
    | Except.ok untypedSensor =>
      if untypedSensor.isSensor = false then none
      else
        let r3 := { r2 with sensor := some untypedSensor }
        match NewQueue newConf.SampleSize with
        | Except.error err => some ({ r3 with queue := none }, some err)
        | Except.ok q =>
          let r4 := { r3 with queue := some q }
          match compile newConf.ValueRegex with
          | Except.error err => some (r4, some err)
          | Except.ok matchRegex =>
            let sleepTime := 1000 / newConf.PollingFrequencyHz
            some ({ r4 with monitor := some ⟨matchRegex, sleepTime⟩ }, none)

/-- `NewAlarmSensor`: a struct with a fresh, not yet cancelled context and
zero values elsewhere, then `Reconfigure`; its error is returned instead of
the sensor. -/
def NewAlarmSensor (compile : String → Except GoError Regexp) (deps : Dependencies)
    (conf : Config) : Option (Except GoError alarm) :=
  let r : alarm :=
    { cancelled := false
      monitor := none
      monitorRunning := false
      sensor := none
      cfg := none
      queue := none
      currentRateOfChange := 0
      currentValue := none }
  match r.Reconfigure compile deps conf with
  | none => none
  | some (_, some err) => some (Except.error err)
  | some (r1, none) => some (Except.ok r1)

/-- What the first `select` of the monitor loop chooses. -/
inductive LoopChoice where
  | exit
  | tick
deriving DecidableEq

/-- The first `select` of the monitor loop: return when `cancelCtx` is done,
otherwise run the tick body. -/
def alarm.monitorSelect (r : alarm) : LoopChoice :=
  if r.cancelled then LoopChoice.exit else LoopChoice.tick

/-- The rate loop of the tick, `for i := 1; i < len(samples); i++`, with `n`
iterations left: each iteration overwrites the rate with
`(samples[i] - samples[i-1]) / (sleepTime / 1000)`.  `none` is a failed
`.(float64)` assertion or an index out of range. -/
def rateLoop (samples : List RawValue) (sleepTime : ℚ) : Nat → Nat → ℚ → Option ℚ
  | _, 0, cur => some cur
  | i, n + 1, _ =>
    match samples[i]?, samples[i - 1]? with
    | some (RawValue.float64 a), some (RawValue.float64 b) =>
      rateLoop samples sleepTime (i + 1) n ((a - b) / (sleepTime / 1000))
    | _, _ => none

/-- The rate-of-change computation of a tick on the snapshot `samples`: with
fewer than two samples the stored rate stays, otherwise the rate loop runs. -/
def updateRate (samples : List RawValue) (sleepTime : ℚ) (prior : ℚ) : Option ℚ :=
  if samples.length < 2 then some prior
  else rateLoop samples sleepTime 1 (samples.length - 1) prior

/-- The tick body of the `monitor` closure (the `default` branch of the first
`select`), for the reading `reading` returned by the sensor at time `now`. -/
def alarm.tick (parseFloat : String → Except GoError ℚ) (r : alarm) (m : Monitor)
    (reading : SensorReading) (now : Nat) : Option alarm :=
  match r.sensor with
  | none => none
  | some _ =>
    match reading with
    | Except.error _ => some r
    | Except.ok readings =>
      match r.cfg with
      | none => none
      | some cfg =>
        let rawValue := readings cfg.FieldName
        if rawValue = RawValue.nil then some r
        else
          match parseToFloat parseFloat rawValue m.matchRegex with
          | Except.error _ => some r
          | Except.ok value =>
            match r.queue with
            | none => none
            | some q =>
              match q.Push (RawValue.float64 value) with
              | none => none
              | some (q1, _) =>
                match q1.ReadAll with
                | none => none
                | some samples =>
                  match updateRate samples m.sleepTime r.currentRateOfChange with
                  | none => none
                  | some rate =>
                    some { r with
                            currentValue := some ⟨value, now⟩
                            queue := some q1
                            currentRateOfChange := rate }

/-- A tick input is successful with value `v`: the read succeeds, the field is
present and `parseToFloat` returns `v`. -/
def Delivers (parseFloat : String → Except GoError ℚ) (cfg : AlarmConfig) (m : Monitor)
    (reading : SensorReading) (v : ℚ) : Prop :=
  ∃ readings, reading = Except.ok readings ∧ readings cfg.FieldName ≠ RawValue.nil ∧
    parseToFloat parseFloat (readings cfg.FieldName) m.matchRegex = Except.ok v

/-- `alarm.DoCommand`: returns the map `ok: 1` and a nil error, whatever the
command; the receiver is not touched. -/
def alarm.DoCommand (r : alarm) : alarm × List (String × Int) :=
  (r, [("ok", 1)])

/-- A call on the component. -/
inductive Operation where
  | reconfigure (deps : Dependencies) (conf : Config)
  | close
  | readings
  | doCommand

/-- The state after an operation; `none` is a panic. -/
def alarm.apply (compile : String → Except GoError Regexp) (r : alarm) :
    Operation → Option alarm
  | Operation.reconfigure deps conf => (r.Reconfigure compile deps conf).map Prod.fst
  | Operation.close => some r.Close
  | Operation.readings => r.Readings.map (fun _ => r)
  | Operation.doCommand => some r.DoCommand.1

/-- Which case the second `select` of the monitor loop takes. -/
inductive WaitChoice where
  | timer
  | done
deriving DecidableEq

/-- One iteration of the `for` loop of the `monitor` closure.  The first
`select` returns when the context is done and otherwise runs the tick body (a
`break` there leaves the `select`, not the loop).  `signal` says that another
goroutine cancels the context while the iteration runs.  The second `select`
returns through its `Done` case, which needs the context to be done, and
otherwise continues with the next iteration. -/
def alarm.monitorIter (parseFloat : String → Except GoError ℚ) (m : Monitor) (r : alarm)
    (reading : SensorReading) (now : Nat) (signal : Bool) (pick : WaitChoice) :
    Option (alarm × LoopChoice) :=
  match r.monitorSelect with
  | LoopChoice.exit => some (r, LoopChoice.exit)
  | LoopChoice.tick =>
    match r.tick parseFloat m reading now with
    | none => none
    | some r1 =>
      let r2 := { r1 with cancelled := r1.cancelled || signal }
      if r2.cancelled = true ∧ pick = WaitChoice.done then some (r2, LoopChoice.exit)
      else some (r2, LoopChoice.tick)

/-- States reached from `r0` by running the tick body of the closure `m` any
number of times, on any readings. -/
inductive alarm.TickReachable (parseFloat : String → Except GoError ℚ) (m : Monitor)
    (r0 : alarm) : alarm → Prop where
  | start : alarm.TickReachable parseFloat m r0 r0
  | step (r r1 : alarm) (reading : SensorReading) (now : Nat)
      (hr : alarm.TickReachable parseFloat m r0 r)
      (h : r.tick parseFloat m reading now = some r1) : alarm.TickReachable parseFloat m r0 r1

/-- The `for` loop of the `monitor` closure over the readings the sensor would
return, one per iteration, with no cancellation arriving meanwhile: the
iterations run until one returns. -/
def alarm.monitorRun (parseFloat : String → Except GoError ℚ) (m : Monitor) :
    alarm → List (SensorReading × Nat) → Option alarm
  | r, [] => some r
  | r, (reading, now) :: rest =>
    match r.monitorIter parseFloat m reading now false WaitChoice.timer with
    | none => none
    | some (r1, LoopChoice.exit) => some r1
    | some (r1, LoopChoice.tick) => alarm.monitorRun parseFloat m r1 rest

/-- The states the component can be in: the struct returned by a successful
`NewAlarmSensor`, then any operations on it that do not panic, and any
iterations of the loop of the stored `monitor` closure. -/
inductive alarm.ProgramReachable (compile : String → Except GoError Regexp)
    (parseFloat : String → Except GoError ℚ) : alarm → Prop where
  | new (deps : Dependencies) (conf : Config) (r : alarm)
      (h : NewAlarmSensor compile deps conf = some (Except.ok r)) :
      alarm.ProgramReachable compile parseFloat r
  | op (r r1 : alarm) (o : Operation)
      (hr : alarm.ProgramReachable compile parseFloat r)
      (h : r.apply compile o = some r1) : alarm.ProgramReachable compile parseFloat r1
  | iter (r r1 : alarm) (m : Monitor) (reading : SensorReading) (now : Nat) (signal : Bool)
      (pick : WaitChoice) (choice : LoopChoice)
      (hr : alarm.ProgramReachable compile parseFloat r) (hm : r.monitor = some m)
      (h : r.monitorIter parseFloat m reading now signal pick = some (r1, choice)) :
      alarm.ProgramReachable compile parseFloat r1

/-- Go conversion of a `float64` to an integer type: the fraction is dropped
(truncation toward zero). -/
def truncToInt (x : ℚ) : Int :=
  if 0 ≤ x.num then x.num / x.den else -((-x.num) / x.den)

/-- The argument of `time.After` in the monitor loop, in nanoseconds:
`time.Duration(sleepTime) * time.Millisecond`. -/
def waitNanos (sleepTime : ℚ) : Int :=
  truncToInt sleepTime * 1000000

/-- The fields of the `alarm` struct that are read or written after
construction.  The context is left out: it synchronises itself. -/
inductive Field where
  | monitor
  | sensor
  | cfg
  | queue
  | currentRateOfChange
  | currentValue
deriving DecidableEq

/-- A call on `r.mu` or an access to a field of the struct. -/
inductive Access where
  | lock
  | unlock
  | rlock
  | runlock
  | read (f : Field)
  | write (f : Field)
deriving DecidableEq

/-- How `r.mu` is held at a point of a method. -/
inductive Held where
  | free
  | shared
  | exclusive
deriving DecidableEq

/-- `alarm.Readings` in program order: the six entries of the returned map
read `currentRateOfChange`, `currentValue`, and four times `currentValue` and
`cfg`.  The method makes no call on `r.mu`. -/
def ReadingsTrace : List Access :=
  [Access.read Field.currentRateOfChange, Access.read Field.currentValue,
   Access.read Field.currentValue, Access.read Field.cfg,
   Access.read Field.currentValue, Access.read Field.cfg,
   Access.read Field.currentValue, Access.read Field.cfg,
   Access.read Field.currentValue, Access.read Field.cfg]

/-- The successful tick body in program order: the sensor is read through
`r.sensor`, the field name through `r.cfg`, `currentValue` is stored, the
queue is pushed to and read, `currentRateOfChange` is stored.  The closure
makes no call on `r.mu`. -/
def tickTrace : List Access :=
  [Access.read Field.sensor, Access.read Field.cfg, Access.write Field.currentValue,
   Access.read Field.queue, Access.read Field.queue, Access.write Field.currentRateOfChange]

/-- The successful `alarm.Reconfigure` in program order: `r.mu.Lock()`, the
stores to `cfg`, `sensor` and `queue`, the read of `cfg` for `sleepTime`, the
store to `monitor`, and the deferred `r.mu.Unlock()`. -/
def ReconfigureTrace : List Access :=
  [Access.lock, Access.write Field.cfg, Access.write Field.sensor, Access.write Field.queue,
   Access.read Field.cfg, Access.write Field.monitor, Access.unlock]

/-- `alarm.Close` in program order: `r.mu.Lock()` and the deferred
`r.mu.Unlock()` around the cancellation and the wait. -/
def CloseTrace : List Access :=
  [Access.lock, Access.unlock]

/-- Whether every read happens with `r.mu` held, shared or exclusive, and
every write with `r.mu` held exclusively, starting from `held`. -/
def guardedFrom : Held → List Access → Bool
  | _, [] => true
  | _, Access.lock :: rest => guardedFrom Held.exclusive rest
  | _, Access.unlock :: rest => guardedFrom Held.free rest
  | _, Access.rlock :: rest => guardedFrom Held.shared rest
  | _, Access.runlock :: rest => guardedFrom Held.free rest
  | held, Access.read _ :: rest => (held != Held.free) && guardedFrom held rest
  | held, Access.write _ :: rest => (held == Held.exclusive) && guardedFrom held rest

/-- The lock discipline of a method entered with `r.mu` not held. -/
def guarded (trace : List Access) : Bool :=
  guardedFrom Held.free trace

/-- The compiled empty pattern (`regexp.Compile("")`, the pattern in use when
no `valueRegex` is configured): it matches the empty string at the start of
every text. -/
def emptyPattern : Regexp :=
  ⟨fun _ => some ""⟩

/-- The compiled pattern `[0-9.]+`: the leftmost maximal run of digits and
dots, `none` when the text has neither. -/
def digitsPattern : Regexp :=
  ⟨fun s =>
    let inClass : Char → Bool := fun ch => ch.isDigit || ch == '.'
    let run := (s.data.dropWhile (fun ch => !inClass ch)).takeWhile inClass
    if run = [] then none else some (String.mk run)⟩

/-- A stand-in for `strconv.ParseFloat` that knows the numeral `23.5` only. -/
def sampleParseFloat : String → Except GoError ℚ :=
  fun s => if s = "23.5" then Except.ok (47 / 2) else Except.error ⟨"invalid syntax"⟩

/-- The configuration of the end-to-end example: window of 3, polling at 1 Hz. -/
def exampleConfig : AlarmConfig :=
  { SensorName := "probe"
    FieldName := "temp"
    ValueRegex := "[0-9.]+"
    RateOfChangePerSecond := 1
    PollingFrequencyHz := 1
    SampleSize := 3
    LowValue := 5
    LowLowValue := 0
    HighValue := 50
    HighHighValue := 60 }

/-- A resolver that knows every name as a sensor. -/
def exampleDeps : Dependencies :=
  fun name => Except.ok ⟨name, true⟩

/-- A `regexp.Compile` stand-in that returns the pattern `[0-9.]+`. -/
def exampleCompile : String → Except GoError Regexp :=
  fun _ => Except.ok digitsPattern

/-- The zero-valued struct built by `NewAlarmSensor` before `Reconfigure`. -/
def exampleFresh : alarm :=
  { cancelled := false
    monitor := none
    monitorRunning := false
    sensor := none
    cfg := none
    queue := none
    currentRateOfChange := 0
    currentValue := none }

/-- The state installed by `Reconfigure` on `exampleFresh` with `exampleConfig`. -/
def exampleInstalled : alarm :=
  { cancelled := true
    monitor := some ⟨digitsPattern, 1000 / 1⟩
    monitorRunning := false
    sensor := some ⟨"probe", true⟩
    cfg := some exampleConfig
    queue := some ⟨[RawValue.nil, RawValue.nil, RawValue.nil], 0, 0, 3, 0⟩
    currentRateOfChange := 0
    currentValue := none }

/-- A successful sensor read whose every field holds the `float64` `v`. -/
def exampleReading (v : ℚ) : SensorReading :=
  Except.ok (fun _ => RawValue.float64 v)

/-- A configuration that `Validate` rejects (window of 1) and that converts. -/
def undersizedConfig : AlarmConfig :=
  { exampleConfig with SampleSize := 1 }

/-- A second valid configuration, with a window of 5 at 2 Hz. -/
def widerConfig : AlarmConfig :=
  { exampleConfig with SampleSize := 5, PollingFrequencyHz := 2 }

/-- The state installed by `Reconfigure` on `exampleInstalled` with `widerConfig`. -/
def exampleReinstalled : alarm :=
  { exampleInstalled with
    monitor := some ⟨digitsPattern, 1000 / 2⟩
    cfg := some widerConfig
    queue := some ⟨[RawValue.nil, RawValue.nil, RawValue.nil, RawValue.nil, RawValue.nil],
      0, 0, 5, 0⟩ }

/-- A configuration naming a sensor the resolver does not know. -/
def unknownSensorConfig : AlarmConfig :=
  { exampleConfig with SensorName := "missing", SampleSize := 5, LowValue := 7 }

/-- A configuration whose sample window size is zero. -/
def zeroWindowConfig : AlarmConfig :=
  { exampleConfig with SensorName := "other", SampleSize := 0 }

/-- A resolver that knows every name but `missing`. -/
def partialDeps : Dependencies :=
  fun name =>
    if name = "missing" then Except.error ⟨"resource not found"⟩ else Except.ok ⟨name, true⟩

/-- The state reached from `exampleInstalled` by the ticks with readings 10, 12
and 15 at times 0, 1 and 2. -/
def exampleAfterTicks : alarm :=
  { exampleInstalled with
    queue := some ⟨[RawValue.float64 10, RawValue.float64 12, RawValue.float64 15], 0, 0, 3, 3⟩
    currentRateOfChange := 3
    currentValue := some ⟨15, 2⟩ }

/-- Representation invariant of a queue that has only been pushed to: the
first `count` slots hold `xs`, `head` is zero and `tail` is `count` modulo
the capacity. -/
def Queue.Holds {α : Type} (q : Queue α) (xs : List α) : Prop :=
  q.head = 0 ∧ 0 < q.size ∧ q.values.length = q.size ∧ q.count ≤ q.size ∧
    q.tail = q.count % q.size ∧ q.count = xs.length ∧ q.values.take q.count = xs

/-- A tick input fails: the read fails, or the configured field is absent, or
the value extraction fails. -/
def FailsTick (parseFloat : String → Except GoError ℚ) (cfg : AlarmConfig) (m : Monitor)
    (reading : SensorReading) : Prop :=
  (∃ e, reading = Except.error e) ∨
    (∃ readings, reading = Except.ok readings ∧ readings cfg.FieldName = RawValue.nil) ∨
    (∃ readings e, reading = Except.ok readings ∧
      parseToFloat parseFloat (readings cfg.FieldName) m.matchRegex = Except.error e)

/-- What ticks maintain: sensor and configuration stay, the buffer holds the
`float64` window `xs` in a queue of capacity `n`, and once the window has two
samples the stored rate is the one of its last pair. -/
def alarm.Window (m : Monitor) (n : Nat) (cfg : AlarmConfig) (r : alarm) (xs : List ℚ) : Prop :=
  (∃ res, r.sensor = some res) ∧ r.cfg = some cfg ∧
    (∃ q, r.queue = some q ∧ q.Holds (xs.map RawValue.float64) ∧ q.size = n) ∧
    ∀ pre a b, xs = pre ++ [a, b] → r.currentRateOfChange = (b - a) / (m.sleepTime / 1000)

/-- The example state after the first tick (reading 10 at time 0). -/
def exampleAfterOne : alarm :=
  { exampleInstalled with
    queue := some ⟨[RawValue.float64 10, RawValue.nil, RawValue.nil], 0, 1, 3, 1⟩
    currentValue := some ⟨10, 0⟩ }

/-- The example state after the second tick (reading 12 at time 1). -/
def exampleAfterTwo : alarm :=
  { exampleInstalled with
    queue := some ⟨[RawValue.float64 10, RawValue.float64 12, RawValue.nil], 0, 2, 3, 2⟩
    currentRateOfChange := 2
    currentValue := some ⟨12, 1⟩ }

/-! ## Theorems -/

/-! ### The sample buffer -/

theorem Queue.readLoop_eq {α : Type} (q : Queue α) (h0 : q.head = 0)
    (hlen : q.values.length = q.size) :
    ∀ n i, i + n ≤ q.size → q.readLoop i n = some ((q.values.drop i).take n) := by
  intro n
  induction n with
  | zero => intro i _; simp [Queue.readLoop]
  | succ n ih =>
    intro i hi
    have hlt : i < q.size := by omega
    have hne : q.size ≠ 0 := by omega
    have hidx : (q.head + i) % q.size = i := by
      rw [h0, Nat.zero_add]; exact Nat.mod_eq_of_lt hlt
    have hiv : i < q.values.length := by omega
    rw [Queue.readLoop, if_neg hne, hidx, List.getElem?_eq_getElem hiv]
    simp only [ih (i + 1) (by omega), Option.map_some']
    rw [List.drop_eq_getElem_cons hiv, List.take_succ_cons]

theorem Queue.readAll_of_holds {α : Type} (q : Queue α) (xs : List α) (h : q.Holds xs) :
    q.ReadAll = some xs := by
  obtain ⟨h0, _, hlen, hle, _, _, htake⟩ := h
  rw [Queue.ReadAll, Queue.readLoop_eq q h0 hlen q.count 0 (by omega)]
  simpa using htake

theorem NewQueue_holds (α : Type) [Inhabited α] (c : Int) (hc : 0 < c) :
    ∃ q : Queue α, NewQueue c = Except.ok q ∧ q.Holds [] ∧ q.size = c.toNat ∧ q.count = 0 := by
  refine ⟨_, by rw [NewQueue, if_neg (by omega)], ?_, rfl, rfl⟩
  have : 0 < c.toNat := by omega
  simp [Queue.Holds, this]

theorem List.take_succ_set_self {α : Type} (l : List α) (n : Nat) (v : α) (h : n < l.length) :
    (l.set n v).take (n + 1) = l.take n ++ [v] := by
  induction l generalizing n with
  | nil => simp at h
  | cons a l ih =>
    cases n with
    | zero => simp
    | succ n => simp at h; simp [ih n h]

theorem Queue.push_of_holds {α : Type} (q : Queue α) (xs : List α) (v : α)
    (h : q.Holds xs) (hlt : q.count < q.size) :
    ∃ q1 : Queue α, q.Push v = some (q1, none) ∧ q1.Holds (xs ++ [v]) ∧
      q1.size = q.size ∧ q1.count = q.count + 1 := by
  obtain ⟨h0, hpos, hlen, hle, htail, hcnt, htake⟩ := h
  have hfull : q.IsFull = false := by
    simp [Queue.IsFull]; omega
  have htl : q.tail = q.count := by rw [htail]; exact Nat.mod_eq_of_lt hlt
  have hne : q.size ≠ 0 := by omega
  have hc' : q.count < q.values.length := by omega
  refine ⟨{ q with values := q.values.set q.tail v, tail := (q.tail + 1) % q.size,
                   count := q.count + 1 }, ?_, ?_, rfl, rfl⟩
  · rw [Queue.Push, hfull]; simp [htl, hlen, hlt, hne]
  · refine ⟨h0, hpos, by simpa using hlen, hlt, by simp [htl], by simp [hcnt], ?_⟩
    simp only [htl]
    rw [List.take_succ_set_self _ _ _ hc', htake]

theorem Queue.push_of_full {α : Type} (q : Queue α) (v : α) (h : q.count = q.size) :
    q.Push v = some (q, some ⟨"queue is full"⟩) := by
  simp [Queue.Push, Queue.IsFull, h]

theorem Queue.pushMany_of_holds {α : Type} (vs : List α) :
    ∀ (q : Queue α) (xs : List α), q.Holds xs → q.count + vs.length ≤ q.size →
      ∃ q1 : Queue α, q.pushMany vs = some (q1, List.replicate vs.length none) ∧
        q1.Holds (xs ++ vs) ∧ q1.size = q.size ∧ q1.count = q.count + vs.length := by
  induction vs with
  | nil =>
    intro q xs h _
    exact ⟨q, rfl, by simpa using h, rfl, rfl⟩
  | cons v vs ih =>
    intro q xs h hle
    simp only [List.length_cons] at hle
    obtain ⟨q1, hp, hh, hs, hc⟩ := Queue.push_of_holds q xs v h (by omega)
    obtain ⟨q2, hp2, hh2, hs2, hc2⟩ := ih q1 (xs ++ [v]) hh (by omega)
    refine ⟨q2, ?_, by simpa using hh2, by omega, by simp only [List.length_cons]; omega⟩
    simp [Queue.pushMany, hp, hp2, List.replicate_succ]

/-- C1: for every capacity `c > 0` and every list `vs` of at most `c` values,
`NewQueue c` succeeds, every `Push` of the values in turn returns no error,
and `ReadAll` then returns exactly `vs`, oldest first, of length `vs.length`. -/
theorem C1_push_then_readAll {α : Type} [Inhabited α] (c : Int) (vs : List α)
    (hc : 0 < c) (hk : (vs.length : Int) ≤ c) :
    ∃ q0 q : Queue α, NewQueue c = Except.ok q0 ∧
      q0.pushMany vs = some (q, List.replicate vs.length none) ∧
      q.ReadAll = some vs ∧ q.count = vs.length ∧
      ∀ out, q.ReadAll = some out → out.length = vs.length := by
  obtain ⟨q0, hnew, hh, hs, hcnt⟩ := NewQueue_holds α c hc
  obtain ⟨q, hp, hh1, _, hc1⟩ := Queue.pushMany_of_holds vs q0 [] hh (by omega)
  have hr : q.ReadAll = some vs := Queue.readAll_of_holds q vs (by simpa using hh1)
  refine ⟨q0, q, hnew, hp, hr, by omega, ?_⟩
  intro out hout
  rw [hr] at hout
  cases hout
  rfl

theorem C1_push_then_readAll_witness :
    ∃ q0 q : Queue Nat, NewQueue 3 = Except.ok q0 ∧
      q0.pushMany [7, 8] = some (q, List.replicate [7, 8].length none) ∧
      q.ReadAll = some [7, 8] ∧ q.count = [7, 8].length ∧
      ∀ out, q.ReadAll = some out → out.length = [7, 8].length :=
  C1_push_then_readAll 3 [7, 8] (by decide) (by decide)

/-- C2: for every capacity `c > 0`, after `c` successful pushes onto a fresh
queue a further `Push` returns the error `queue is full` and returns the queue
unchanged, so `ReadAll` gives the same `c` values before and after. -/
theorem C2_push_when_full {α : Type} [Inhabited α] (c : Int) (vs : List α) (v : α)
    (hc : 0 < c) (hk : (vs.length : Int) = c) :
    ∃ q0 q : Queue α, NewQueue c = Except.ok q0 ∧
      q0.pushMany vs = some (q, List.replicate vs.length none) ∧
      q.ReadAll = some vs ∧
      q.Push v = some (q, some ⟨"queue is full"⟩) := by
  obtain ⟨q0, hnew, hh, hs, hcnt⟩ := NewQueue_holds α c hc
  obtain ⟨q, hp, hh1, hs1, hc1⟩ := Queue.pushMany_of_holds vs q0 [] hh (by omega)
  exact ⟨q0, q, hnew, hp, Queue.readAll_of_holds q vs (by simpa using hh1),
    Queue.push_of_full q v (by omega)⟩

theorem C2_push_when_full_witness :
    ∃ q0 q : Queue Nat, NewQueue 2 = Except.ok q0 ∧
      q0.pushMany [7, 8] = some (q, List.replicate [7, 8].length none) ∧
      q.ReadAll = some [7, 8] ∧
      q.Push 9 = some (q, some ⟨"queue is full"⟩) :=
  C2_push_when_full 2 [7, 8] 9 (by decide) (by decide)

/-- C3: `NewQueue length` returns an error exactly when `length <= 0`; for
`length > 0` it returns a queue with `IsEmpty` true, `ReadAll` empty and
`IsFull` false. -/
theorem C3_newQueue (α : Type) [Inhabited α] (length : Int) :
    ((∃ e, (NewQueue length : Except GoError (Queue α)) = Except.error e) ↔ length ≤ 0) ∧
    (0 < length → ∃ q : Queue α, NewQueue length = Except.ok q ∧
      q.IsEmpty = true ∧ q.ReadAll = some [] ∧ q.IsFull = false) := by
  constructor
  · constructor
    · rintro ⟨e, he⟩
      by_contra hpos
      rw [NewQueue, if_neg hpos] at he
      cases he
    · intro hle
      exact ⟨_, by rw [NewQueue, if_pos hle]⟩
  · intro hpos
    have hne : length.toNat ≠ 0 := by omega
    refine ⟨{ values := List.replicate length.toNat default, head := 0, tail := 0,
              size := length.toNat, count := 0 }, ?_, rfl, rfl, ?_⟩
    · rw [NewQueue, if_neg (by omega)]
    · simpa [Queue.IsFull] using hne

theorem C3_newQueue_witness :
    ∃ q : Queue Nat, NewQueue 3 = Except.ok q ∧
      q.IsEmpty = true ∧ q.ReadAll = some [] ∧ q.IsFull = false :=
  (C3_newQueue Nat 3).2 (by decide)

theorem Queue.Reachable.bound {α : Type} [Inhabited α] (c : Int) (q : Queue α)
    (h : Queue.Reachable c q) : 0 < c ∧ (q.size : Int) = c ∧ q.count ≤ q.size := by
  induction h with
  | new q h =>
    by_cases hc : c ≤ 0
    · rw [NewQueue, if_pos hc] at h; cases h
    · rw [NewQueue, if_neg hc] at h
      cases h
      refine ⟨by omega, ?_, Nat.zero_le _⟩
      show ((c.toNat : Nat) : Int) = c
      omega
  | push q q1 v e _ h ih =>
    obtain ⟨hc, hs, hle⟩ := ih
    unfold Queue.Push at h
    split at h
    · cases h; exact ⟨hc, hs, hle⟩
    · rename_i hnf
      have hne : q.size ≠ q.count := by simpa [Queue.IsFull] using hnf
      split at h
      · split at h
        · cases h
        · cases h
          exact ⟨hc, hs, by show q.count + 1 ≤ q.size; omega⟩
      · cases h
  | readAll q out _ _ ih => exact ih

/-- C4: in every queue state reachable from a successful `NewQueue c` by
`Push` (succeeding or failing) and `ReadAll`, `0 <= count <= c`, `IsFull` is
true exactly when `count = c`, and `IsEmpty` is true exactly when `count = 0`. -/
theorem C4_reachable_invariant {α : Type} [Inhabited α] (c : Int) (q : Queue α)
    (h : Queue.Reachable c q) :
    (0 : Int) ≤ q.count ∧ (q.count : Int) ≤ c ∧
      (q.IsFull = true ↔ (q.count : Int) = c) ∧ (q.IsEmpty = true ↔ q.count = 0) := by
  obtain ⟨_, hs, hle⟩ := Queue.Reachable.bound c q h
  refine ⟨by omega, by omega, ?_, by simp [Queue.IsEmpty]⟩
  simp only [Queue.IsFull, beq_iff_eq]
  omega

theorem C4_reachable_invariant_witness :
    (0 : Int) ≤ (Queue.mk [7, 0] 0 1 2 1).count ∧ ((Queue.mk [7, 0] 0 1 2 1).count : Int) ≤ 2 ∧
      ((Queue.mk [7, 0] 0 1 2 1).IsFull = true ↔ ((Queue.mk [7, 0] 0 1 2 1).count : Int) = 2) ∧
      ((Queue.mk [7, 0] 0 1 2 1).IsEmpty = true ↔ (Queue.mk [7, 0] 0 1 2 1).count = 0) :=
  C4_reachable_invariant 2 (Queue.mk [7, 0] 0 1 2 1)
    (Queue.Reachable.push (Queue.mk [0, 0] 0 0 2 0) _ 7 none
      (Queue.Reachable.new _ rfl) rfl)

/-! ### Rate of change -/

theorem rateLoop_float64 (s : List ℚ) (st : ℚ) :
    ∀ n i cur, 1 ≤ i → i + n = s.length → 0 < n →
      rateLoop (s.map RawValue.float64) st i n cur =
        some ((s.getD (s.length - 1) 0 - s.getD (s.length - 2) 0) / (st / 1000)) := by
  intro n
  induction n with
  | zero => intro i cur _ _ h; omega
  | succ n ih =>
    intro i cur hi hlen _
    have h1 : i < s.length := by omega
    have h2 : i - 1 < s.length := by omega
    rw [rateLoop]
    simp only [List.getElem?_map, List.getElem?_eq_getElem h1, List.getElem?_eq_getElem h2,
      Option.map_some']
    cases n with
    | zero =>
      have e1 : s.length - 1 = i := by omega
      have e2 : s.length - 2 = i - 1 := by omega
      rw [rateLoop, e1, e2, List.getD_eq_getElem _ _ h1, List.getD_eq_getElem _ _ h2]
    | succ n => exact ih (i + 1) _ (by omega) (by omega) (by omega)

theorem updateRate_short (s : List RawValue) (st prior : ℚ) (h : s.length < 2) :
    updateRate s st prior = some prior := by
  rw [updateRate, if_pos h]

theorem updateRate_last_pair (pre : List ℚ) (a b st prior : ℚ) :
    updateRate ((pre ++ [a, b]).map RawValue.float64) st prior = some ((b - a) / (st / 1000)) := by
  have hlen : (pre ++ [a, b]).length = pre.length + 2 := by simp
  rw [updateRate, if_neg (by simp), List.length_map,
    rateLoop_float64 (pre ++ [a, b]) st _ 1 prior (le_refl 1) (by rw [hlen]; omega)
      (by rw [hlen]; omega)]
  have hb : (pre ++ [a, b]).getD ((pre ++ [a, b]).length - 1) 0 = b := by
    rw [hlen, List.getD_append_right _ _ _ _ (by omega)]
    have : pre.length + 2 - 1 - pre.length = 1 := by omega
    rw [this]; rfl
  have ha : (pre ++ [a, b]).getD ((pre ++ [a, b]).length - 2) 0 = a := by
    rw [hlen, List.getD_append_right _ _ _ _ (by omega)]
    have : pre.length + 2 - 2 - pre.length = 0 := by omega
    rw [this]; rfl
  rw [hb, ha]

/-- C5: the rate-of-change computation of a tick on a snapshot `s` of
`float64` samples, with `sleepTime = 1000 / f`: with fewer than two samples
the stored rate keeps its prior value; with at least two it becomes the delta
of the last adjacent pair divided by `(1000 / f) / 1000`, whatever the earlier
elements of the window are. -/
theorem C5_rate_of_change (f prior : ℚ) :
    (∀ s : List ℚ, s.length < 2 →
      updateRate (s.map RawValue.float64) (1000 / f) prior = some prior) ∧
    (∀ (pre : List ℚ) (a b : ℚ),
      updateRate ((pre ++ [a, b]).map RawValue.float64) (1000 / f) prior =
        some ((b - a) / ((1000 / f) / 1000))) :=
  ⟨fun s h => updateRate_short _ _ _ (by simpa using h),
   fun pre a b => updateRate_last_pair pre a b _ _⟩

theorem C5_rate_of_change_witness :
    updateRate (([] : List ℚ).map RawValue.float64) (1000 / 2) 7 = some 7 ∧
    updateRate (([1, 5] ++ [10, 13] : List ℚ).map RawValue.float64) (1000 / 2) 7 =
      some ((13 - 10) / ((1000 / 2) / 1000)) :=
  ⟨(C5_rate_of_change 2 7).1 [] (by decide), (C5_rate_of_change 2 7).2 [1, 5] 10 13⟩

/-! ### Alarm flags -/

/-- C6: with latest value `v` and thresholds `cfg`, `Readings` reports
`lowLowValueAlarm = (v < lowLowValue)`, `lowValueAlarm = (v < lowValue)`,
`highValueAlarm = (v > highValue)`, `highHighValueAlarm = (v > highHighValue)`,
each a function of `v` and its own threshold only; a value equal to a
threshold does not raise that threshold's alarm, and a value one unit below
`lowValue` raises `lowValueAlarm`. -/
theorem C6_alarm_flags (r : alarm) (cfg : AlarmConfig) (v : ℚ) (t : Nat) :
    ∃ out, ({ r with cfg := some cfg, currentValue := some ⟨v, t⟩ } : alarm).Readings = some out ∧
      out.lowLowValueAlarm = decide (v < cfg.LowLowValue) ∧
      out.lowValueAlarm = decide (v < cfg.LowValue) ∧
      out.highValueAlarm = decide (v > cfg.HighValue) ∧
      out.highHighValueAlarm = decide (v > cfg.HighHighValue) ∧
      (v = cfg.LowLowValue → out.lowLowValueAlarm = false) ∧
      (v = cfg.LowValue → out.lowValueAlarm = false) ∧
      (v = cfg.HighValue → out.highValueAlarm = false) ∧
      (v = cfg.HighHighValue → out.highHighValueAlarm = false) ∧
      (v = cfg.LowValue - 1 → out.lowValueAlarm = true) := by
  refine ⟨_, rfl, rfl, rfl, rfl, rfl, ?_, ?_, ?_, ?_, ?_⟩
  · intro h; simp [h]
  · intro h; simp [h]
  · intro h; simp [h]
  · intro h; simp [h]
  · intro h; simp [h]

theorem C6_alarm_flags_witness :
    ∃ out, ({ (⟨true, none, false, none, none, none, 0, none⟩ : alarm) with
                cfg := some ⟨"s", "f", "", 1, 1, 3, 10, 5, 20, 25⟩
                currentValue := some ⟨9, 0⟩ } : alarm).Readings = some out ∧
      out.lowLowValueAlarm = false ∧ out.lowValueAlarm = true ∧
      out.highValueAlarm = false ∧ out.highHighValueAlarm = false := by
  obtain ⟨out, h, h1, h2, h3, h4, _, _, _, _, h5⟩ :=
    C6_alarm_flags ⟨true, none, false, none, none, none, 0, none⟩
      ⟨"s", "f", "", 1, 1, 3, 10, 5, 20, 25⟩ 9 0
  refine ⟨out, h, ?_, h5 (by norm_num), ?_, ?_⟩
  · rw [h1]; norm_num
  · rw [h3]; norm_num
  · rw [h4]; norm_num

/-! ### Value extraction -/

/-- C7: `parseToFloat` at readings of dynamic type `uint8`, `int16` and
`uint64`: the type switch has no case for them, so the result is `0` with a
nil error, whereas `int32(7)` yields `7`. -/
theorem C7_parseToFloat_missing_widths (parseFloat : String → Except GoError ℚ)
    (re : Regexp) :
    parseToFloat parseFloat (RawValue.uint8 5) re = Except.ok 0 ∧
    parseToFloat parseFloat (RawValue.int16 7) re = Except.ok 0 ∧
    parseToFloat parseFloat (RawValue.uint64 9) re = Except.ok 0 ∧
    parseToFloat parseFloat (RawValue.int32 7) re = Except.ok 7 :=
  ⟨rfl, rfl, rfl, by simp [parseToFloat]⟩

theorem parse_msg_ne_match_msg (m e s : String) :
    "error parsing value " ++ m ++ " as float: " ++ e ≠ "value " ++ s ++ " does not match regex" := by
  intro h
  have h1 := congrArg String.data h
  simp only [String.data_append] at h1
  simp at h1

/-- C8, counterexample: with the empty pattern, whose leftmost match in `23.5`
is the empty string, a substring matches and yet `parseToFloat` fails with the
no-match error, not with the parse error of the matched text. -/
theorem C8_empty_match_counterexample :
    emptyPattern.find "23.5" = some "" ∧
    parseToFloat sampleParseFloat (RawValue.string "23.5") emptyPattern =
      Except.error ⟨"value 23.5 does not match regex"⟩ ∧
    sampleParseFloat "" = Except.error ⟨"invalid syntax"⟩ := by
  refine ⟨rfl, ?_, ?_⟩
  · simp [parseToFloat, Regexp.FindString, emptyPattern]
  · simp [sampleParseFloat]

/-- C8, amended: for textual readings `parseToFloat` fails with the no-match
error exactly when no substring matches or the leftmost match is the empty
string; when the leftmost match `m` is non-empty the outcome is that of
parsing `m`: its value, or the parse error naming `m`. -/
theorem C8_parseToFloat_text (parseFloat : String → Except GoError ℚ) (re : Regexp)
    (s : String) :
    (parseToFloat parseFloat (RawValue.string s) re =
        Except.error ⟨"value " ++ s ++ " does not match regex"⟩ ↔
      (re.find s = none ∨ re.find s = some "")) ∧
    (∀ m, re.find s = some m → m ≠ "" →
      parseToFloat parseFloat (RawValue.string s) re =
        match parseFloat m with
        | Except.error err =>
          Except.error ⟨"error parsing value " ++ m ++ " as float: " ++ err.msg⟩
        | Except.ok p => Except.ok p) := by
  constructor
  · constructor
    · intro h
      cases hf : re.find s with
      | none => exact Or.inl rfl
      | some m =>
        right
        by_contra hne
        have hm : m ≠ "" := fun hm => hne (by rw [hm])
        simp only [parseToFloat, Regexp.FindString, hf, Option.getD_some, if_neg hm] at h
        cases hp : parseFloat m with
        | error err =>
          rw [hp] at h
          simp only [Except.error.injEq, GoError.mk.injEq] at h
          exact parse_msg_ne_match_msg _ _ _ h
        | ok p => rw [hp] at h; cases h
    · rintro (h | h) <;> simp [parseToFloat, Regexp.FindString, h]
  · intro m hf hm
    simp only [parseToFloat, Regexp.FindString, hf, Option.getD_some, if_neg hm]

theorem C8_parseToFloat_text_witness :
    parseToFloat sampleParseFloat (RawValue.string "23.5C") digitsPattern = Except.ok (47 / 2) := by
  have h := (C8_parseToFloat_text sampleParseFloat digitsPattern "23.5C").2 "23.5"
    (by decide) (by decide)
  rw [h]
  simp [sampleParseFloat]

/-! ### Reconfiguration and ticks -/

theorem alarm.Reconfigure_ok (compile : String → Except GoError Regexp) (r0 r : alarm)
    (deps : Dependencies) (conf : Config)
    (h : r0.Reconfigure compile deps conf = some (r, none)) :
    ∃ cfg res q re, conf.nativeConfig = Except.ok cfg ∧
      deps cfg.SensorName = Except.ok res ∧ res.isSensor = true ∧
      NewQueue cfg.SampleSize = Except.ok q ∧ compile cfg.ValueRegex = Except.ok re ∧
      r = { cancelled := true
            monitor := some ⟨re, 1000 / cfg.PollingFrequencyHz⟩
            monitorRunning := false
            sensor := some res
            cfg := some cfg
            queue := some q
            currentRateOfChange := r0.currentRateOfChange
            currentValue := r0.currentValue } := by
  unfold alarm.Reconfigure at h
  cases hc : conf.nativeConfig with
  | error err => simp [hc] at h
  | ok cfg =>
    cases hd : deps cfg.SensorName with
    | error err => simp [hc, hd] at h
    | ok res =>
      cases hs : res.isSensor with
      | false => simp [hc, hd, hs] at h
      | true =>
        cases hq : (NewQueue cfg.SampleSize : Except GoError (Queue RawValue)) with
        | error err => simp [hc, hd, hs, hq] at h
        | ok q =>
          cases hr : compile cfg.ValueRegex with
          | error err => simp [hc, hd, hs, hq, hr] at h
          | ok re =>
            simp only [hc, hd, hs, hq, hr] at h
            simp at h
            exact ⟨cfg, res, q, re, rfl, hd, hs, hq, hr, h.symm⟩

theorem alarm.tick_of_delivers (parseFloat : String → Except GoError ℚ) (r : alarm)
    (m : Monitor) (cfg : AlarmConfig) (res : Resource) (q : Queue RawValue) (xs : List ℚ)
    (reading : SensorReading) (now : Nat) (v : ℚ)
    (hs : r.sensor = some res) (hc : r.cfg = some cfg) (hq : r.queue = some q)
    (hh : q.Holds (xs.map RawValue.float64)) (hlt : q.count < q.size)
    (hd : Delivers parseFloat cfg m reading v) :
    ∃ q1 rate, r.tick parseFloat m reading now =
        some { r with currentValue := some ⟨v, now⟩, queue := some q1,
                      currentRateOfChange := rate } ∧
      q1.Holds ((xs ++ [v]).map RawValue.float64) ∧ q1.size = q.size ∧
      q1.count = q.count + 1 ∧
      updateRate ((xs ++ [v]).map RawValue.float64) m.sleepTime r.currentRateOfChange =
        some rate := by
  obtain ⟨readings, hread, hnil, hparse⟩ := hd
  obtain ⟨q1, hpush, hh1, hs1, hc1⟩ :=
    Queue.push_of_holds q (xs.map RawValue.float64) (RawValue.float64 v) hh hlt
  have hh1' : q1.Holds ((xs ++ [v]).map RawValue.float64) := by simpa using hh1
  have hra := Queue.readAll_of_holds q1 _ hh1'
  have hrate : ∃ rate, updateRate ((xs ++ [v]).map RawValue.float64) m.sleepTime
      r.currentRateOfChange = some rate := by
    rcases List.eq_nil_or_concat xs with hx | ⟨pre, a, hx⟩
    · exact ⟨_, updateRate_short _ _ _ (by simp [hx])⟩
    · refine ⟨(v - a) / (m.sleepTime / 1000), ?_⟩
      have : xs ++ [v] = pre ++ [a, v] := by simp [hx]
      rw [this]
      exact updateRate_last_pair pre a v _ _
  obtain ⟨rate, hrate⟩ := hrate
  refine ⟨q1, rate, ?_, hh1', hs1, hc1, hrate⟩
  simp only [alarm.tick, hs, hread, hc, if_neg hnil, hparse, hq, hpush, hra, hrate]

/-- C10: at a valid configuration `NewAlarmSensor` succeeds, and in the state
it returns the `monitor` closure is stored but no goroutine runs it, the
cancellation context is done, and the first `select` of the monitor loop would
choose to return. -/
theorem C10_monitor_not_started :
    NewAlarmSensor exampleCompile exampleDeps ⟨Except.ok exampleConfig⟩ =
        some (Except.ok exampleInstalled) ∧
      exampleConfig.Validate = Except.ok () ∧
      exampleInstalled.monitor.isSome = true ∧
      exampleInstalled.monitorRunning = false ∧
      exampleInstalled.cancelled = true ∧
      exampleInstalled.monitorSelect = LoopChoice.exit := by
  refine ⟨rfl, ?_, rfl, rfl, rfl, rfl⟩
  simp only [AlarmConfig.Validate, exampleConfig]
  rw [if_neg (by decide), if_neg (by decide), if_neg (by norm_num), if_neg (by norm_num),
    if_neg (by norm_num)]

theorem alarm.Reconfigure_cancelled (compile : String → Except GoError Regexp) (r0 r : alarm)
    (deps : Dependencies) (conf : Config)
    (h : r0.Reconfigure compile deps conf = some (r, none)) :
    r.cancelled = true ∧ r.monitorRunning = false ∧ r.monitorSelect = LoopChoice.exit := by
  obtain ⟨_, _, _, _, _, _, _, _, _, hr⟩ := alarm.Reconfigure_ok compile r0 r deps conf h
  subst hr
  exact ⟨rfl, rfl, rfl⟩

/-! ### Failing and repeated reconfiguration -/

/-- C11, counterexample: `Reconfigure` on the struct just built by
`NewAlarmSensor`, whose context is not cancelled, with a configuration whose
conversion fails: the error comes back and the context is cancelled.  And
with a configuration that `Validate` rejects and that converts: no error
comes back and the rejected configuration is installed. -/
theorem C11_invalid_configuration_counterexample :
    (exampleFresh.cancelled = false ∧
      ∃ r, exampleFresh.Reconfigure exampleCompile exampleDeps
          ⟨Except.error ⟨"unexpected type"⟩⟩ = some (r, some ⟨"unexpected type"⟩) ∧
        r.cancelled = true) ∧
    (undersizedConfig.Validate = Except.error ⟨"sampleSize must be at least 2"⟩ ∧
      ∃ r, exampleFresh.Reconfigure exampleCompile exampleDeps
          ⟨Except.ok undersizedConfig⟩ = some (r, none) ∧
        r.cfg.map AlarmConfig.SampleSize = some 1 ∧ exampleFresh.cfg.isNone = true) := by
  refine ⟨⟨rfl, _, rfl, rfl⟩, ?_, _, rfl, rfl, rfl⟩
  simp only [AlarmConfig.Validate, undersizedConfig, exampleConfig]
  rw [if_neg (by decide), if_neg (by decide), if_neg (by norm_num), if_neg (by norm_num),
    if_pos (by decide)]

/-- C11, amended: `Reconfigure` does not check the configuration itself.  When
the conversion fails, it returns that error verbatim; configuration, sensor
handle, buffer, monitor closure, latest sample and rate of change are those
from before the call, while the cancellation signal has been set before the
conversion.  When the conversion succeeds, the configuration is installed with
a nil error as soon as the lookup, the buffer construction and the pattern
compilation succeed, whether `Validate` accepts it or not. -/
theorem C11_invalid_configuration (compile : String → Except GoError Regexp) (r : alarm)
    (deps : Dependencies) (conf : Config) :
    (∀ e, conf.nativeConfig = Except.error e →
      ∃ r1, r.Reconfigure compile deps conf = some (r1, some e) ∧
        r1.cancelled = true ∧ r1.cfg = r.cfg ∧ r1.sensor = r.sensor ∧ r1.queue = r.queue ∧
        r1.monitor = r.monitor ∧ r1.currentValue = r.currentValue ∧
        r1.currentRateOfChange = r.currentRateOfChange) ∧
    (∀ c res re, conf.nativeConfig = Except.ok c → deps c.SensorName = Except.ok res →
      res.isSensor = true → 0 < c.SampleSize → compile c.ValueRegex = Except.ok re →
      ∃ r1, r.Reconfigure compile deps conf = some (r1, none) ∧
        r1.cancelled = true ∧ r1.cfg = some c ∧ r1.sensor = some res ∧
        r1.currentValue = r.currentValue ∧
        r1.currentRateOfChange = r.currentRateOfChange) := by
  constructor
  · intro e h
    refine ⟨{ r with cancelled := true, monitorRunning := false }, ?_, rfl, rfl, rfl, rfl,
      rfl, rfl, rfl⟩
    simp only [alarm.Reconfigure, h]
  · intro c res re hc hd hs hpos hr
    obtain ⟨q, hq, _, _, _⟩ := NewQueue_holds RawValue c.SampleSize hpos
    refine ⟨{ cancelled := true
              monitor := some ⟨re, 1000 / c.PollingFrequencyHz⟩
              monitorRunning := false
              sensor := some res
              cfg := some c
              queue := some q
              currentRateOfChange := r.currentRateOfChange
              currentValue := r.currentValue }, ?_, rfl, rfl, rfl, rfl, rfl⟩
    simp [alarm.Reconfigure, hc, hd, hs, hq, hr]

theorem C11_invalid_configuration_witness :
    (∃ r1, exampleInstalled.Reconfigure exampleCompile exampleDeps
        ⟨Except.error ⟨"unexpected type"⟩⟩ = some (r1, some ⟨"unexpected type"⟩) ∧
      r1.cancelled = true ∧ r1.cfg = exampleInstalled.cfg ∧
      r1.sensor = exampleInstalled.sensor ∧ r1.queue = exampleInstalled.queue ∧
      r1.monitor = exampleInstalled.monitor ∧
      r1.currentValue = exampleInstalled.currentValue ∧
      r1.currentRateOfChange = exampleInstalled.currentRateOfChange) ∧
    (∃ r1, exampleInstalled.Reconfigure exampleCompile exampleDeps
        ⟨Except.ok undersizedConfig⟩ = some (r1, none) ∧
      r1.cancelled = true ∧ r1.cfg = some undersizedConfig ∧
      r1.sensor = some ⟨"probe", true⟩ ∧
      r1.currentValue = exampleInstalled.currentValue ∧
      r1.currentRateOfChange = exampleInstalled.currentRateOfChange) :=
  ⟨(C11_invalid_configuration exampleCompile exampleInstalled exampleDeps
      ⟨Except.error ⟨"unexpected type"⟩⟩).1 ⟨"unexpected type"⟩ rfl,
   (C11_invalid_configuration exampleCompile exampleInstalled exampleDeps
      ⟨Except.ok undersizedConfig⟩).2 undersizedConfig ⟨"probe", true⟩ digitsPattern rfl rfl rfl
      (by decide) rfl⟩

/-- C12, counterexample: from the installed example state, a `Reconfigure`
whose sensor lookup fails leaves the new configuration installed next to the
old sensor handle and buffer, and one whose buffer construction fails leaves
the new configuration and sensor handle installed and the buffer absent. -/
theorem C12_partial_install_counterexample :
    (∃ r, exampleInstalled.Reconfigure exampleCompile partialDeps
        ⟨Except.ok unknownSensorConfig⟩ = some (r, some ⟨"resource not found"⟩) ∧
      r.cfg.map AlarmConfig.SampleSize = some 5 ∧
      exampleInstalled.cfg.map AlarmConfig.SampleSize = some 3 ∧
      r.sensor = exampleInstalled.sensor ∧ r.queue = exampleInstalled.queue) ∧
    (∃ r, exampleInstalled.Reconfigure exampleCompile partialDeps
        ⟨Except.ok zeroWindowConfig⟩ = some (r, some ⟨"length must be greater than 0"⟩) ∧
      r.cfg.map AlarmConfig.SampleSize = some 0 ∧ r.sensor = some ⟨"other", true⟩ ∧
      r.queue = none ∧ exampleInstalled.queue.isSome = true) :=
  ⟨⟨_, rfl, rfl, rfl, rfl, rfl⟩, ⟨_, rfl, rfl, rfl, rfl, rfl⟩⟩

/-- C12, amended: when `Reconfigure` fails at a later step, what was assigned
before that step stays assigned.  After a failed lookup the configuration is
the new one, sensor handle and buffer are the old ones; after a failed buffer
construction configuration and sensor handle are new and the buffer is absent;
after a failed pattern compilation configuration, sensor handle and buffer are
all new and the monitor closure is the old one. -/
theorem C12_later_failures (compile : String → Except GoError Regexp) (r : alarm)
    (deps : Dependencies) (conf : Config) (c : AlarmConfig) (e : GoError)
    (hc : conf.nativeConfig = Except.ok c) :
    (deps c.SensorName = Except.error e →
      r.Reconfigure compile deps conf =
        some ({ r with cancelled := true, monitorRunning := false, cfg := some c }, some e)) ∧
    (∀ res, deps c.SensorName = Except.ok res → res.isSensor = true →
      (NewQueue c.SampleSize : Except GoError (Queue RawValue)) = Except.error e →
      r.Reconfigure compile deps conf =
        some ({ r with cancelled := true, monitorRunning := false, cfg := some c,
                       sensor := some res, queue := none }, some e)) ∧
    (∀ res q, deps c.SensorName = Except.ok res → res.isSensor = true →
      NewQueue c.SampleSize = Except.ok q → compile c.ValueRegex = Except.error e →
      r.Reconfigure compile deps conf =
        some ({ r with cancelled := true, monitorRunning := false, cfg := some c,
                       sensor := some res, queue := some q }, some e)) := by
  refine ⟨?_, ?_, ?_⟩
  · intro hd
    simp only [alarm.Reconfigure, hc, hd]
  · intro res hd hs hq
    simp [alarm.Reconfigure, hc, hd, hs, hq]
  · intro res q hd hs hq hr
    simp [alarm.Reconfigure, hc, hd, hs, hq, hr]

theorem C12_later_failures_witness :
    exampleInstalled.Reconfigure exampleCompile partialDeps ⟨Except.ok unknownSensorConfig⟩ =
      some ({ exampleInstalled with cancelled := true, monitorRunning := false,
                                    cfg := some unknownSensorConfig },
        some ⟨"resource not found"⟩) :=
  (C12_later_failures exampleCompile exampleInstalled partialDeps
    ⟨Except.ok unknownSensorConfig⟩ unknownSensorConfig ⟨"resource not found"⟩ rfl).1 rfl

theorem alarm.Reconfigure_fresh_buffer (compile : String → Except GoError Regexp)
    (r0 r : alarm) (deps : Dependencies) (conf : Config)
    (h : r0.Reconfigure compile deps conf = some (r, none)) :
    ∃ cfg q, r.cfg = some cfg ∧ r.queue = some q ∧
      q.count = 0 ∧ q.IsEmpty = true ∧ q.ReadAll = some [] ∧ (q.size : Int) = cfg.SampleSize ∧
      r.currentValue = r0.currentValue ∧ r.currentRateOfChange = r0.currentRateOfChange := by
  obtain ⟨cfg, res, q, re, _, _, _, hq, _, hr⟩ := alarm.Reconfigure_ok compile r0 r deps conf h
  subst hr
  have hpos : 0 < cfg.SampleSize := by
    by_contra hle
    rw [NewQueue, if_pos (by omega)] at hq
    cases hq
  obtain ⟨q0, hq0, hh0, hs0, hc0⟩ := NewQueue_holds RawValue cfg.SampleSize hpos
  have hqq : q0 = q := by
    rw [hq0] at hq
    exact Except.ok.inj hq
  subst hqq
  refine ⟨cfg, q0, rfl, rfl, hc0, by simp [Queue.IsEmpty, hc0],
    Queue.readAll_of_holds q0 [] hh0, by rw [hs0]; omega, rfl, rfl⟩

/-! ### Configuration validation -/

/-- C15: `Validate` returns no error exactly when `sensorName` and `fieldName`
are non-empty, `rateOfChangePerSecond > 0`, `pollingFrequencyHz > 0` and
`sampleSize >= 2`; thresholds and extraction pattern do not matter; and the
error is that of the first failing check in the order sensor name, field
name, rate of change, polling frequency, sample size. -/
theorem C15_validate (cfg : AlarmConfig) :
    (cfg.Validate = Except.ok () ↔
      cfg.SensorName ≠ "" ∧ cfg.FieldName ≠ "" ∧ 0 < cfg.RateOfChangePerSecond ∧
        0 < cfg.PollingFrequencyHz ∧ 2 ≤ cfg.SampleSize) ∧
    (∀ (re : String) (low lowLow high highHigh : ℚ),
      ({ cfg with ValueRegex := re, LowValue := low, LowLowValue := lowLow,
                  HighValue := high, HighHighValue := highHigh } : AlarmConfig).Validate =
        cfg.Validate) ∧
    (cfg.SensorName = "" → cfg.Validate = Except.error ⟨"missing sensorName"⟩) ∧
    (cfg.SensorName ≠ "" → cfg.FieldName = "" →
      cfg.Validate = Except.error ⟨"missing fieldName"⟩) ∧
    (cfg.SensorName ≠ "" → cfg.FieldName ≠ "" → cfg.RateOfChangePerSecond ≤ 0 →
      cfg.Validate = Except.error ⟨"rateOfChangePerSecond must be positive"⟩) ∧
    (cfg.SensorName ≠ "" → cfg.FieldName ≠ "" → 0 < cfg.RateOfChangePerSecond →
      cfg.PollingFrequencyHz ≤ 0 →
      cfg.Validate = Except.error ⟨"pollingFrequencyHz must be positive"⟩) ∧
    (cfg.SensorName ≠ "" → cfg.FieldName ≠ "" → 0 < cfg.RateOfChangePerSecond →
      0 < cfg.PollingFrequencyHz → cfg.SampleSize < 2 →
      cfg.Validate = Except.error ⟨"sampleSize must be at least 2"⟩) := by
  refine ⟨?_, ?_, ?_, ?_, ?_, ?_, ?_⟩
  · unfold AlarmConfig.Validate
    constructor
    · intro h
      split at h
      · cases h
      · split at h
        · cases h
        · split at h
          · cases h
          · split at h
            · cases h
            · split at h
              · cases h
              · rename_i h1 h2 h3 h4 h5
                exact ⟨h1, h2, not_le.mp h3, not_le.mp h4, not_lt.mp h5⟩
    · rintro ⟨h1, h2, h3, h4, h5⟩
      rw [if_neg h1, if_neg h2, if_neg (not_le.mpr h3), if_neg (not_le.mpr h4),
        if_neg (not_lt.mpr h5)]
  · intro re low lowLow high highHigh
    rfl
  · intro h1
    rw [AlarmConfig.Validate, if_pos h1]
  · intro h1 h2
    rw [AlarmConfig.Validate, if_neg h1, if_pos h2]
  · intro h1 h2 h3
    rw [AlarmConfig.Validate, if_neg h1, if_neg h2, if_pos h3]
  · intro h1 h2 h3 h4
    rw [AlarmConfig.Validate, if_neg h1, if_neg h2, if_neg (not_le.mpr h3), if_pos h4]
  · intro h1 h2 h3 h4 h5
    rw [AlarmConfig.Validate, if_neg h1, if_neg h2, if_neg (not_le.mpr h3),
      if_neg (not_le.mpr h4), if_pos h5]

theorem C15_validate_witness :
    ({ exampleConfig with FieldName := "", SampleSize := 1, LowLowValue := 99 } :
        AlarmConfig).Validate = Except.error ⟨"missing fieldName"⟩ :=
  (C15_validate { exampleConfig with FieldName := "", SampleSize := 1, LowLowValue := 99 }).2.2.2.1
    (by decide) rfl

/-! ### Readings before the first sample -/

theorem alarm.Readings_without_sample (r : alarm) (h : r.currentValue = none) :
    r.Readings = none := by
  simp [alarm.Readings, h]

/-- C16: in the state returned by `NewAlarmSensor` at a valid configuration a
configuration is installed and no sample has been recorded; `Readings` there
dereferences the nil `currentValue` and panics. -/
theorem C16_readings_before_first_sample :
    NewAlarmSensor exampleCompile exampleDeps ⟨Except.ok exampleConfig⟩ =
        some (Except.ok exampleInstalled) ∧
      exampleInstalled.cfg.isSome = true ∧ exampleInstalled.currentValue = none ∧
      exampleInstalled.Readings = none :=
  ⟨rfl, rfl, rfl, rfl⟩

/-! ### Failed ticks -/

theorem alarm.tick_of_failure (parseFloat : String → Except GoError ℚ) (m : Monitor)
    (r : alarm) (res : Resource) (cfg : AlarmConfig) (reading : SensorReading) (now : Nat)
    (hs : r.sensor = some res) (hc : r.cfg = some cfg)
    (hfail : FailsTick parseFloat cfg m reading) :
    r.tick parseFloat m reading now = some r := by
  rcases hfail with ⟨e, he⟩ | ⟨readings, he, hnil⟩ | ⟨readings, e, he, hp⟩
  · simp only [alarm.tick, hs, he]
  · simp only [alarm.tick, hs, he, hc, hnil, if_true]
  · by_cases hnil : readings cfg.FieldName = RawValue.nil
    · simp only [alarm.tick, hs, he, hc, hnil, if_true]
    · simp only [alarm.tick, hs, he, hc, if_neg hnil, hp]

/-- C14: in a state with sensor and configuration installed and the context
not cancelled, a tick whose sensor read fails, or whose reading lacks the
configured field, or whose value extraction fails, returns the state as it
was (latest sample, rate of change and buffer included), and the loop
iteration goes on to the wait and, with no cancellation, continues. -/
theorem C14_failed_tick (parseFloat : String → Except GoError ℚ) (m : Monitor) (r : alarm)
    (res : Resource) (cfg : AlarmConfig) (reading : SensorReading) (now : Nat)
    (hs : r.sensor = some res) (hc : r.cfg = some cfg) (hrun : r.cancelled = false)
    (hfail : (∃ e, reading = Except.error e) ∨
      (∃ readings, reading = Except.ok readings ∧ readings cfg.FieldName = RawValue.nil) ∨
      (∃ readings e, reading = Except.ok readings ∧
        parseToFloat parseFloat (readings cfg.FieldName) m.matchRegex = Except.error e)) :
    r.tick parseFloat m reading now = some r ∧
      ∀ pick, r.monitorIter parseFloat m reading now false pick = some (r, LoopChoice.tick) := by
  have htick := alarm.tick_of_failure parseFloat m r res cfg reading now hs hc hfail
  refine ⟨htick, ?_⟩
  intro pick
  have hsel : r.monitorSelect = LoopChoice.tick := by simp [alarm.monitorSelect, hrun]
  simp only [alarm.monitorIter, hsel, htick, hrun, Bool.or_false]
  cases r
  simp_all

theorem C14_failed_tick_witness :
    ({ exampleAfterTicks with cancelled := false } : alarm).tick sampleParseFloat
        ⟨digitsPattern, 1000 / 1⟩ (Except.ok (fun _ => RawValue.string "n/a")) 3 =
      some { exampleAfterTicks with cancelled := false } ∧
    ∀ pick, ({ exampleAfterTicks with cancelled := false } : alarm).monitorIter
        sampleParseFloat ⟨digitsPattern, 1000 / 1⟩
        (Except.ok (fun _ => RawValue.string "n/a")) 3 false pick =
      some ({ exampleAfterTicks with cancelled := false }, LoopChoice.tick) :=
  C14_failed_tick sampleParseFloat ⟨digitsPattern, 1000 / 1⟩
    { exampleAfterTicks with cancelled := false } ⟨"probe", true⟩ exampleConfig
    (Except.ok (fun _ => RawValue.string "n/a")) 3 rfl rfl rfl
    (Or.inr (Or.inr ⟨_, ⟨"value n/a does not match regex"⟩, rfl, rfl⟩))

/-! ### The full window -/

theorem reading_fails_or_delivers (parseFloat : String → Except GoError ℚ) (cfg : AlarmConfig)
    (m : Monitor) (reading : SensorReading) :
    FailsTick parseFloat cfg m reading ∨ ∃ v, Delivers parseFloat cfg m reading v := by
  cases reading with
  | error e => exact Or.inl (Or.inl ⟨e, rfl⟩)
  | ok readings =>
    by_cases hnil : readings cfg.FieldName = RawValue.nil
    · exact Or.inl (Or.inr (Or.inl ⟨readings, rfl, hnil⟩))
    · cases hp : parseToFloat parseFloat (readings cfg.FieldName) m.matchRegex with
      | error e => exact Or.inl (Or.inr (Or.inr ⟨readings, e, rfl, hp⟩))
      | ok v => exact Or.inr ⟨v, readings, rfl, hnil, hp⟩

theorem alarm.tick_of_delivers_full (parseFloat : String → Except GoError ℚ) (r : alarm)
    (m : Monitor) (cfg : AlarmConfig) (res : Resource) (q : Queue RawValue) (xs : List ℚ)
    (reading : SensorReading) (now : Nat) (v : ℚ)
    (hs : r.sensor = some res) (hc : r.cfg = some cfg) (hq : r.queue = some q)
    (hh : q.Holds (xs.map RawValue.float64)) (hfull : q.count = q.size)
    (hrate : updateRate (xs.map RawValue.float64) m.sleepTime r.currentRateOfChange =
      some r.currentRateOfChange)
    (hd : Delivers parseFloat cfg m reading v) :
    r.tick parseFloat m reading now = some { r with currentValue := some ⟨v, now⟩ } := by
  obtain ⟨readings, hread, hnil, hparse⟩ := hd
  have hpush := Queue.push_of_full q (RawValue.float64 v) hfull
  have hra := Queue.readAll_of_holds q _ hh
  simp only [alarm.tick, hs, hread, hc, if_neg hnil, hparse, hq, hpush, hra, hrate]

theorem updateRate_of_window (m : Monitor) (xs : List ℚ) (rate : ℚ)
    (h : ∀ pre a b, xs = pre ++ [a, b] → rate = (b - a) / (m.sleepTime / 1000)) :
    updateRate (xs.map RawValue.float64) m.sleepTime rate = some rate := by
  rcases List.eq_nil_or_concat xs with hx | ⟨ys, b, hx⟩
  · exact updateRate_short _ _ _ (by simp [hx])
  · rcases List.eq_nil_or_concat ys with hy | ⟨pre, a, hy⟩
    · exact updateRate_short _ _ _ (by simp [hx, hy])
    · have hsplit : xs = pre ++ [a, b] := by simp [hx, hy]
      rw [hsplit, updateRate_last_pair, ← h pre a b hsplit]

theorem alarm.Window.tick (parseFloat : String → Except GoError ℚ) (m : Monitor) (n : Nat)
    (cfg : AlarmConfig) (r r1 : alarm) (xs : List ℚ) (reading : SensorReading) (now : Nat)
    (hw : alarm.Window m n cfg r xs) (h : r.tick parseFloat m reading now = some r1) :
    ∃ xs1, alarm.Window m n cfg r1 xs1 := by
  obtain ⟨⟨res, hs⟩, hc, ⟨q, hq, hh, hsize⟩, hrate⟩ := hw
  rcases reading_fails_or_delivers parseFloat cfg m reading with hfail | ⟨v, hd⟩
  · rw [alarm.tick_of_failure parseFloat m r res cfg reading now hs hc hfail] at h
    cases h
    exact ⟨xs, ⟨res, hs⟩, hc, ⟨q, hq, hh, hsize⟩, hrate⟩
  · by_cases hlt : q.count < q.size
    · obtain ⟨q1, rate, htick, hh1, hs1, _, hup⟩ :=
        alarm.tick_of_delivers parseFloat r m cfg res q xs reading now v hs hc hq hh hlt hd
      rw [htick] at h
      cases h
      refine ⟨xs ++ [v], ⟨res, hs⟩, hc, ⟨q1, rfl, hh1, by omega⟩, ?_⟩
      intro pre a b hsplit
      rw [hsplit, updateRate_last_pair] at hup
      exact (Option.some.inj hup).symm
    · have hfull : q.count = q.size := by
        have hle : q.count ≤ q.size := hh.2.2.2.1
        omega
      rw [alarm.tick_of_delivers_full parseFloat r m cfg res q xs reading now v hs hc hq hh
        hfull (updateRate_of_window m xs _ hrate) hd] at h
      cases h
      exact ⟨xs, ⟨res, hs⟩, hc, ⟨q, hq, hh, hsize⟩, hrate⟩

theorem alarm.TickReachable.window (parseFloat : String → Except GoError ℚ) (m : Monitor)
    (n : Nat) (cfg : AlarmConfig) (r r1 : alarm) (xs : List ℚ)
    (hw : alarm.Window m n cfg r xs) (hreach : alarm.TickReachable parseFloat m r r1) :
    ∃ xs1, alarm.Window m n cfg r1 xs1 := by
  induction hreach with
  | start => exact ⟨xs, hw⟩
  | step ra rb reading now _ h ih =>
    obtain ⟨xsa, hwa⟩ := ih
    exact alarm.Window.tick parseFloat m n cfg ra rb xsa reading now hwa h

theorem alarm.Window.installed (compile : String → Except GoError Regexp) (r0 r : alarm)
    (deps : Dependencies) (conf : Config) (cfg : AlarmConfig) (m : Monitor)
    (hre : r0.Reconfigure compile deps conf = some (r, none)) (hcfg : r.cfg = some cfg) :
    0 < cfg.SampleSize ∧ alarm.Window m cfg.SampleSize.toNat cfg r [] := by
  obtain ⟨cfg1, res, q, re, _, _, _, hq, _, hr⟩ := alarm.Reconfigure_ok compile r0 r deps conf hre
  subst hr
  simp only [Option.some.injEq] at hcfg
  subst hcfg
  have hpos : 0 < cfg1.SampleSize := by
    by_contra hle
    rw [NewQueue, if_pos (by omega)] at hq
    cases hq
  obtain ⟨q0, hq0, hh0, hs0, _⟩ := NewQueue_holds RawValue cfg1.SampleSize hpos
  have hqq : q0 = q := by
    rw [hq0] at hq
    exact Except.ok.inj hq
  subst hqq
  refine ⟨hpos, ⟨res, rfl⟩, rfl, ⟨q0, rfl, by simpa using hh0, hs0⟩, ?_⟩
  intro pre a b hsplit
  simp at hsplit

/-- C18: in every state reached by ticks from a successful `Reconfigure` with
sample window size `N >= 2`, once the buffer holds `N` values a further
successful tick with value `v` changes nothing but the latest sample, which
becomes `v`: buffer and rate of change stay as they were. -/
theorem C18_full_window_freezes (compile : String → Except GoError Regexp)
    (parseFloat : String → Except GoError ℚ) (r0 r r1 : alarm) (deps : Dependencies)
    (conf : Config) (cfg : AlarmConfig) (m : Monitor) (q : Queue RawValue)
    (reading : SensorReading) (now : Nat) (v : ℚ)
    (hre : r0.Reconfigure compile deps conf = some (r, none))
    (hcfg : r.cfg = some cfg) (_hm : r.monitor = some m) (hN : 2 ≤ cfg.SampleSize)
    (hreach : alarm.TickReachable parseFloat m r r1)
    (hq : r1.queue = some q) (hfull : (q.count : Int) = cfg.SampleSize)
    (hd : Delivers parseFloat cfg m reading v) :
    ∃ r2 window, r1.tick parseFloat m reading now = some r2 ∧
      r2 = { r1 with currentValue := some ⟨v, now⟩ } ∧
      r2.queue = r1.queue ∧ r2.currentRateOfChange = r1.currentRateOfChange ∧
      r2.currentValue = some ⟨v, now⟩ ∧
      q.ReadAll = some window ∧ (window.length : Int) = cfg.SampleSize := by
  obtain ⟨hpos, hw⟩ := alarm.Window.installed compile r0 r deps conf cfg m hre hcfg
  obtain ⟨xs, ⟨res, hs⟩, hc, ⟨q1, hq1, hh, hsize⟩, hrate⟩ :=
    alarm.TickReachable.window parseFloat m cfg.SampleSize.toNat cfg r r1 [] hw hreach
  rw [hq] at hq1
  simp only [Option.some.injEq] at hq1
  subst hq1
  have hcount : q.count = q.size := by omega
  have htick := alarm.tick_of_delivers_full parseFloat r1 m cfg res q xs reading now v hs hc hq
    hh hcount (updateRate_of_window m xs _ hrate) hd
  have hlen : q.count = (xs.map RawValue.float64).length := hh.2.2.2.2.2.1
  refine ⟨_, xs.map RawValue.float64, htick, rfl, rfl, rfl, rfl,
    Queue.readAll_of_holds q _ hh, ?_⟩
  rw [← hlen]
  exact hfull

theorem exampleAfterTicks_reachable :
    alarm.TickReachable sampleParseFloat ⟨digitsPattern, 1000 / 1⟩ exampleInstalled
      exampleAfterTicks := by
  have h1 : exampleInstalled.tick sampleParseFloat ⟨digitsPattern, 1000 / 1⟩
      (exampleReading 10) 0 = some exampleAfterOne := rfl
  have h2 : exampleAfterOne.tick sampleParseFloat ⟨digitsPattern, 1000 / 1⟩
      (exampleReading 12) 1 = some exampleAfterTwo := by
    simp [alarm.tick, exampleAfterOne, exampleAfterTwo, exampleInstalled, exampleReading,
      exampleConfig, parseToFloat, Queue.Push, Queue.IsFull, Queue.ReadAll, Queue.readLoop,
      updateRate, rateLoop]
    norm_num
  have h3 : exampleAfterTwo.tick sampleParseFloat ⟨digitsPattern, 1000 / 1⟩
      (exampleReading 15) 2 = some exampleAfterTicks := by
    simp [alarm.tick, exampleAfterTwo, exampleAfterTicks, exampleInstalled, exampleReading,
      exampleConfig, parseToFloat, Queue.Push, Queue.IsFull, Queue.ReadAll, Queue.readLoop,
      updateRate, rateLoop]
    norm_num
  exact alarm.TickReachable.step _ _ _ _
    (alarm.TickReachable.step _ _ _ _
      (alarm.TickReachable.step _ _ _ _ alarm.TickReachable.start h1) h2) h3

theorem C18_full_window_freezes_witness :
    ∃ r2 window, exampleAfterTicks.tick sampleParseFloat ⟨digitsPattern, 1000 / 1⟩
        (exampleReading 99) 3 = some r2 ∧
      r2.currentValue = some ⟨99, 3⟩ ∧ r2.currentRateOfChange = 3 ∧
      r2.queue = exampleAfterTicks.queue ∧
      (Queue.mk [RawValue.float64 10, RawValue.float64 12, RawValue.float64 15] 0 0 3 3).ReadAll =
        some window ∧
      window.getLast? = some (RawValue.float64 15) := by
  obtain ⟨r2, window, h1, _, h3, h4, h5, h6, _⟩ :=
    C18_full_window_freezes exampleCompile sampleParseFloat exampleFresh exampleInstalled
      exampleAfterTicks exampleDeps ⟨Except.ok exampleConfig⟩ exampleConfig
      ⟨digitsPattern, 1000 / 1⟩
      ⟨[RawValue.float64 10, RawValue.float64 12, RawValue.float64 15], 0, 0, 3, 3⟩
      (exampleReading 99) 3 99 rfl rfl rfl (by decide) exampleAfterTicks_reachable rfl
      (by decide) ⟨_, rfl, by simp, rfl⟩
  refine ⟨r2, window, h1, h5, h4, h3, h6, ?_⟩
  have hw : (Queue.mk [RawValue.float64 10, RawValue.float64 12, RawValue.float64 15]
      0 0 3 3).ReadAll = some [RawValue.float64 10, RawValue.float64 12, RawValue.float64 15] :=
    rfl
  rw [hw] at h6
  cases h6
  rfl

/-! ### Locking -/

/-- C17: `Readings` reads `cfg`, `currentValue` and `currentRateOfChange` with
`r.mu` not held, and the tick body writes `currentValue` and
`currentRateOfChange` with `r.mu` not held, whereas `Reconfigure` and `Close`
do their work between `Lock` and `Unlock`. -/
theorem C17_readings_and_tick_unlocked :
    guarded ReadingsTrace = false ∧ guarded tickTrace = false ∧
      guarded ReconfigureTrace = true ∧ guarded CloseTrace = true ∧
      Access.rlock ∉ ReadingsTrace ∧ Access.lock ∉ ReadingsTrace ∧
      Access.lock ∉ tickTrace ∧ Access.rlock ∉ tickTrace := by
  decide

/-! ### Cancellation -/

theorem alarm.Reconfigure_sets_cancelled (compile : String → Except GoError Regexp)
    (r r1 : alarm) (deps : Dependencies) (conf : Config) (e : Option GoError)
    (h : r.Reconfigure compile deps conf = some (r1, e)) : r1.cancelled = true := by
  unfold alarm.Reconfigure at h
  cases hc : conf.nativeConfig with
  | error err =>
    simp only [hc, Option.some.injEq, Prod.mk.injEq] at h
    rw [← h.1]
  | ok cfg =>
    cases hd : deps cfg.SensorName with
    | error err =>
      simp only [hc, hd, Option.some.injEq, Prod.mk.injEq] at h
      rw [← h.1]
    | ok res =>
      cases hs : res.isSensor with
      | false => simp [hc, hd, hs] at h
      | true =>
        cases hq : (NewQueue cfg.SampleSize : Except GoError (Queue RawValue)) with
        | error err =>
          simp [hc, hd, hs, hq] at h
          rw [← h.1]
        | ok q =>
          cases hr : compile cfg.ValueRegex with
          | error err =>
            simp [hc, hd, hs, hq, hr] at h
            rw [← h.1]
          | ok re =>
            simp [hc, hd, hs, hq, hr] at h
            rw [← h.1]

/-- C19: `Close` and every `Reconfigure` set the cancellation signal; once it
is set, an iteration of the monitor loop returns at its first `select` with
the state untouched, whatever the sensor would have read; a signal arriving
during an iteration makes that iteration end cancelled, returning at the wait
when the `Done` case is taken; and `Reconfigure`, `Close`, `Readings` and
`DoCommand` all leave the signal set. -/
theorem C19_cancellation_is_final (compile : String → Except GoError Regexp)
    (parseFloat : String → Except GoError ℚ) (m : Monitor) (r : alarm) :
    r.Close.cancelled = true ∧
    (∀ deps conf r1 e, r.Reconfigure compile deps conf = some (r1, e) → r1.cancelled = true) ∧
    (r.cancelled = true → ∀ reading now signal pick,
      r.monitorIter parseFloat m reading now signal pick = some (r, LoopChoice.exit)) ∧
    (r.cancelled = true → ∀ op r1, r.apply compile op = some r1 → r1.cancelled = true) ∧
    (∀ reading now pick r2 choice,
      r.monitorIter parseFloat m reading now true pick = some (r2, choice) →
        r2.cancelled = true ∧ (pick = WaitChoice.done → choice = LoopChoice.exit) ∧
        ∀ reading2 now2 signal2 pick2,
          r2.monitorIter parseFloat m reading2 now2 signal2 pick2 =
            some (r2, LoopChoice.exit)) := by
  have hexit : ∀ s : alarm, s.cancelled = true → ∀ reading now signal pick,
      s.monitorIter parseFloat m reading now signal pick = some (s, LoopChoice.exit) := by
    intro s hs reading now signal pick
    have hsel : s.monitorSelect = LoopChoice.exit := by simp [alarm.monitorSelect, hs]
    simp only [alarm.monitorIter, hsel]
  refine ⟨rfl, ?_, hexit r, ?_, ?_⟩
  · intro deps conf r1 e h
    exact alarm.Reconfigure_sets_cancelled compile r r1 deps conf e h
  · intro hc op r1 h
    cases op with
    | reconfigure deps conf =>
      simp only [alarm.apply, Option.map_eq_some'] at h
      obtain ⟨⟨ra, e⟩, hre, hfst⟩ := h
      simp only at hfst
      subst hfst
      exact alarm.Reconfigure_sets_cancelled compile r ra deps conf e hre
    | close =>
      simp only [alarm.apply, Option.some.injEq] at h
      subst h
      rfl
    | readings =>
      simp only [alarm.apply, Option.map_eq_some'] at h
      obtain ⟨_, _, hr⟩ := h
      subst hr
      exact hc
    | doCommand =>
      simp only [alarm.apply, alarm.DoCommand, Option.some.injEq] at h
      subst h
      exact hc
  · intro reading now pick r2 choice h
    have hr2 : r2.cancelled = true ∧ (pick = WaitChoice.done → choice = LoopChoice.exit) := by
      cases hc : r.cancelled with
      | true =>
        rw [hexit r hc] at h
        simp only [Option.some.injEq, Prod.mk.injEq] at h
        obtain ⟨h1, h2⟩ := h
        subst h1
        exact ⟨hc, fun _ => h2.symm⟩
      | false =>
        have hsel : r.monitorSelect = LoopChoice.tick := by simp [alarm.monitorSelect, hc]
        simp only [alarm.monitorIter, hsel] at h
        cases ht : r.tick parseFloat m reading now with
        | none => simp [ht] at h
        | some ra =>
          simp only [ht, Bool.or_true, true_and] at h
          by_cases hp : pick = WaitChoice.done
          · simp only [hp, if_true, Option.some.injEq, Prod.mk.injEq] at h
            obtain ⟨h1, h2⟩ := h
            subst h1
            exact ⟨rfl, fun _ => h2.symm⟩
          · simp only [hp, if_false, Option.some.injEq, Prod.mk.injEq] at h
            obtain ⟨h1, _⟩ := h
            subst h1
            exact ⟨rfl, fun hd => absurd hd hp⟩
    exact ⟨hr2.1, hr2.2, hexit r2 hr2.1⟩

theorem C19_cancellation_is_final_witness :
    ∀ reading now signal pick,
      exampleInstalled.monitorIter sampleParseFloat ⟨digitsPattern, 1000 / 1⟩ reading now
        signal pick = some (exampleInstalled, LoopChoice.exit) :=
  (C19_cancellation_is_final exampleCompile sampleParseFloat ⟨digitsPattern, 1000 / 1⟩
    exampleInstalled).2.2.1 rfl

/-! ### The inter-tick wait -/

/-- C20: at 3 Hz the monitor waits 333 ms, not 1000/3 ms, and at 2000 Hz it
waits 0 ns, while the rate loop at 3 Hz divides by a third of a second (a
delta of 1 gives the rate 3). -/
theorem C20_wait_is_truncated :
    waitNanos (1000 / 3) = 333000000 ∧
      (waitNanos (1000 / 3) : ℚ) ≠ 1000 / 3 * 1000000 ∧
      waitNanos (1000 / 2000) = 0 ∧
      updateRate [RawValue.float64 0, RawValue.float64 1] (1000 / 3) 0 = some 3 := by
  have h3 : waitNanos (1000 / 3) = 333000000 := by
    simp [waitNanos, truncToInt]
    norm_num
  refine ⟨h3, ?_, ?_, ?_⟩
  · rw [h3]
    norm_num
  · simp [waitNanos, truncToInt]
    norm_num
  · simp [updateRate, rateLoop]

/-! ### What the program reaches -/

theorem alarm.Reconfigure_frame (compile : String → Except GoError Regexp)
    (r r1 : alarm) (deps : Dependencies) (conf : Config) (e : Option GoError)
    (h : r.Reconfigure compile deps conf = some (r1, e)) :
    r1.currentValue = r.currentValue ∧ r1.currentRateOfChange = r.currentRateOfChange := by
  unfold alarm.Reconfigure at h
  cases hc : conf.nativeConfig with
  | error err =>
    simp only [hc, Option.some.injEq, Prod.mk.injEq] at h
    rw [← h.1]
    exact ⟨rfl, rfl⟩
  | ok cfg =>
    cases hd : deps cfg.SensorName with
    | error err =>
      simp only [hc, hd, Option.some.injEq, Prod.mk.injEq] at h
      rw [← h.1]
      exact ⟨rfl, rfl⟩
    | ok res =>
      cases hs : res.isSensor with
      | false => simp [hc, hd, hs] at h
      | true =>
        cases hq : (NewQueue cfg.SampleSize : Except GoError (Queue RawValue)) with
        | error err =>
          simp [hc, hd, hs, hq] at h
          rw [← h.1]
          exact ⟨rfl, rfl⟩
        | ok q =>
          cases hr : compile cfg.ValueRegex with
          | error err =>
            simp [hc, hd, hs, hq, hr] at h
            rw [← h.1]
            exact ⟨rfl, rfl⟩
          | ok re =>
            simp [hc, hd, hs, hq, hr] at h
            rw [← h.1]
            exact ⟨rfl, rfl⟩

theorem alarm.monitorIter_of_cancelled (parseFloat : String → Except GoError ℚ) (m : Monitor)
    (r : alarm) (reading : SensorReading) (now : Nat) (signal : Bool) (pick : WaitChoice)
    (h : r.cancelled = true) :
    r.monitorIter parseFloat m reading now signal pick = some (r, LoopChoice.exit) := by
  have hsel : r.monitorSelect = LoopChoice.exit := by simp [alarm.monitorSelect, h]
  simp only [alarm.monitorIter, hsel]

theorem alarm.ProgramReachable.idle (compile : String → Except GoError Regexp)
    (parseFloat : String → Except GoError ℚ) (r : alarm)
    (h : alarm.ProgramReachable compile parseFloat r) :
    r.cancelled = true ∧ r.currentValue = none ∧ r.currentRateOfChange = 0 := by
  induction h with
  | new deps conf r h =>
    unfold NewAlarmSensor at h
    simp only at h
    split at h
    · cases h
    · cases h
    · rename_i r1 hre
      simp only [Option.some.injEq, Except.ok.injEq] at h
      subst h
      obtain ⟨hv, hrate⟩ := alarm.Reconfigure_frame compile _ _ deps conf none hre
      exact ⟨alarm.Reconfigure_sets_cancelled compile _ _ deps conf none hre, hv, hrate⟩
  | op r r1 o _ h ih =>
    obtain ⟨hc, hv, hrate⟩ := ih
    cases o with
    | reconfigure deps conf =>
      simp only [alarm.apply, Option.map_eq_some'] at h
      obtain ⟨⟨ra, e⟩, hre, hfst⟩ := h
      simp only at hfst
      subst hfst
      obtain ⟨hv1, hrate1⟩ := alarm.Reconfigure_frame compile r ra deps conf e hre
      exact ⟨alarm.Reconfigure_sets_cancelled compile r ra deps conf e hre,
        by rw [hv1, hv], by rw [hrate1, hrate]⟩
    | close =>
      simp only [alarm.apply, Option.some.injEq] at h
      subst h
      exact ⟨rfl, hv, hrate⟩
    | readings =>
      simp only [alarm.apply, Option.map_eq_some'] at h
      obtain ⟨_, _, hr⟩ := h
      subst hr
      exact ⟨hc, hv, hrate⟩
    | doCommand =>
      simp only [alarm.apply, alarm.DoCommand, Option.some.injEq] at h
      subst h
      exact ⟨hc, hv, hrate⟩
  | iter r r1 m reading now signal pick choice _ _ h ih =>
    obtain ⟨hc, hv, hrate⟩ := ih
    rw [alarm.monitorIter_of_cancelled parseFloat m r reading now signal pick hc] at h
    simp only [Option.some.injEq, Prod.mk.injEq] at h
    obtain ⟨h1, _⟩ := h
    subst h1
    exact ⟨hc, hv, hrate⟩

/-- C13: after every successful `Reconfigure` in a state the component can be
in, the buffer is fresh, empty and of capacity equal to the new sample window
size; no latest sample and no rate of change from before are held (they are
absent and zero), so `Readings` reports nothing from before, and a first
successful tick with value `v` leaves the latest sample at `v`, the rate at
zero and the window at `[v]`. -/
theorem C13_fresh_after_reconfigure (compile : String → Except GoError Regexp)
    (parseFloat : String → Except GoError ℚ) (r0 r : alarm) (deps : Dependencies)
    (conf : Config) (hreach : alarm.ProgramReachable compile parseFloat r0)
    (h : r0.Reconfigure compile deps conf = some (r, none)) :
    ∃ cfg q, r.cfg = some cfg ∧ r.queue = some q ∧
      q.count = 0 ∧ q.IsEmpty = true ∧ q.ReadAll = some [] ∧ (q.size : Int) = cfg.SampleSize ∧
      r.currentValue = none ∧ r.currentRateOfChange = 0 ∧ r.Readings = none ∧
      ∀ m reading now v, Delivers parseFloat cfg m reading v →
        ∃ r1 q1, r.tick parseFloat m reading now = some r1 ∧
          r1.currentValue = some ⟨v, now⟩ ∧ r1.currentRateOfChange = 0 ∧
          r1.queue = some q1 ∧ q1.ReadAll = some [RawValue.float64 v] := by
  obtain ⟨_, hv0, hrate0⟩ := alarm.ProgramReachable.idle compile parseFloat r0 hreach
  obtain ⟨hv1, hrate1⟩ := alarm.Reconfigure_frame compile r0 r deps conf none h
  have hv : r.currentValue = none := by rw [hv1, hv0]
  have hrate : r.currentRateOfChange = 0 := by rw [hrate1, hrate0]
  obtain ⟨cfg, q, hcfg, hq, hcount, hempty, hread, hsize, _, _⟩ :=
    alarm.Reconfigure_fresh_buffer compile r0 r deps conf h
  obtain ⟨cfg1, res, qa, re, _, _, _, hqa, _, hr⟩ :=
    alarm.Reconfigure_ok compile r0 r deps conf h
  have hsensor : r.sensor = some res := by rw [hr]
  have hpos : 0 < cfg.SampleSize := by
    have h0 : (0 : Int) ≤ (q.size : Int) := Int.natCast_nonneg _
    by_contra hle
    have hz : cfg.SampleSize = cfg1.SampleSize := by
      rw [hr] at hcfg
      simp only [Option.some.injEq] at hcfg
      rw [hcfg]
    rw [NewQueue, if_pos (by omega)] at hqa
    cases hqa
  obtain ⟨qf, hqf, hhf, hsf, hcf⟩ := NewQueue_holds RawValue cfg.SampleSize hpos
  have hqq : q = qf := by
    have hz : cfg1 = cfg := by
      rw [hr] at hcfg
      simpa using hcfg
    subst hz
    rw [hqf] at hqa
    have hqa2 : qf = qa := Except.ok.inj hqa
    rw [hr] at hq
    simp only [Option.some.injEq] at hq
    rw [← hq, hqa2]
  subst hqq
  refine ⟨cfg, q, hcfg, hq, hcount, hempty, hread, hsize, hv, hrate,
    alarm.Readings_without_sample r hv, ?_⟩
  intro m reading now v hd
  have hlt : q.count < q.size := by omega
  obtain ⟨q1, rate, htick, hh1, _, _, hup⟩ :=
    alarm.tick_of_delivers parseFloat r m cfg res q [] reading now v hsensor hcfg hq
      (by simpa using hhf) hlt hd
  have hrate1 : rate = 0 := by
    rw [updateRate_short _ _ _ (by simp), hrate] at hup
    exact (Option.some.inj hup).symm
  refine ⟨_, q1, htick, rfl, hrate1, rfl, ?_⟩
  simpa using Queue.readAll_of_holds q1 _ hh1

theorem C13_fresh_after_reconfigure_witness :
    exampleInstalled.Reconfigure exampleCompile exampleDeps ⟨Except.ok widerConfig⟩ =
        some (exampleReinstalled, none) ∧
    ∃ cfg q, exampleReinstalled.cfg = some cfg ∧ exampleReinstalled.queue = some q ∧
      q.count = 0 ∧ q.IsEmpty = true ∧ q.ReadAll = some [] ∧ (q.size : Int) = 5 ∧
      exampleReinstalled.currentValue = none ∧ exampleReinstalled.currentRateOfChange = 0 ∧
      exampleReinstalled.Readings = none := by
  obtain ⟨cfg, q, h1, h2, h3, h4, h5, h6, h7, h8, h9, _⟩ :=
    C13_fresh_after_reconfigure exampleCompile sampleParseFloat exampleInstalled
      exampleReinstalled exampleDeps ⟨Except.ok widerConfig⟩
      (alarm.ProgramReachable.new exampleDeps ⟨Except.ok exampleConfig⟩ exampleInstalled rfl)
      rfl
  have hc : cfg = widerConfig := by
    have : exampleReinstalled.cfg = some widerConfig := rfl
    rw [this] at h1
    exact (Option.some.inj h1).symm
  subst hc
  exact ⟨rfl, widerConfig, q, h1, h2, h3, h4, h5, h6, h7, h8, h9⟩

/-! ### The end-to-end example -/

/-- C9: with `sampleSize = 3` and `pollingFrequencyHz = 1`, `NewAlarmSensor`
succeeds and no goroutine runs the monitor; the loop of the installed closure,
fed the readings 10, 12 and 15, returns at its first `select` and leaves the
state as installed, and `Readings` there panics instead of reporting rate 3
and value 15.  The three tick bodies on their own lead to a state where
`Readings` reports rate 3 and value 15. -/
theorem C9_no_tick_is_run :
    NewAlarmSensor exampleCompile exampleDeps ⟨Except.ok exampleConfig⟩ =
        some (Except.ok exampleInstalled) ∧
      exampleInstalled.monitorRunning = false ∧
      exampleInstalled.monitorRun sampleParseFloat ⟨digitsPattern, 1000 / 1⟩
        [(exampleReading 10, 0), (exampleReading 12, 1), (exampleReading 15, 2)] =
          some exampleInstalled ∧
      exampleInstalled.Readings = none ∧
      alarm.TickReachable sampleParseFloat ⟨digitsPattern, 1000 / 1⟩ exampleInstalled
        exampleAfterTicks ∧
      exampleAfterTicks.Readings.map (fun out => (out.rateOfChange, out.currentValue.value)) =
        some (3, 15) :=
  ⟨rfl, rfl, rfl, rfl, exampleAfterTicks_reachable, rfl⟩

end Alarm
